import Mathlib

/-!
# Dispensation tracker: lifecycle, flat-file store, rate limiter, geofence, reminder

A shallow embedding of `src/server.js` (flat-file variant of the store, the
`POST` and `PATCH` handlers of `/dispensations`, the sweep of the rate-limiter
map, the handler of `GET /teachers`) and of `src/public/app.js` (tracking codes,
the countdown reminder and the geofenced return check).

Modelling conventions.

* A JSON object is a property list `List (String × Val)`; reading a property
  returns `none` where JavaScript returns `undefined`.  A property whose value
  is `undefined` is dropped by `JSON.stringify`, so in the flat file it is the
  same as an absent property; it is modelled as absent.
* Numbers that are identifiers or millisecond timestamps are integers (`Int`),
  the exact values of binary64 numbers.  `parseInt` rounds a digit run to
  binary64 (`roundToDouble`), and on a number it reads `String(n)`, which is in
  exponent form from `1e21` on (`parseIntNum`).  Timestamps stay in the range
  where integer arithmetic is exact.
* `db.json` is the list of its `dispensations` records; every store operation
  reads the whole file and, when it writes, writes the whole file.
* A draw of `Math.random()` is a rational number that is a binary64 value
  (`IsBinary64`); its product with the alphabet length is rounded to binary64
  (`randomIndex`) before `Math.floor` is taken.
* Coordinates and distances are real numbers: `calculateDistance` is the
  formula of the source on `ℝ`, without rounding.  There the argument of each
  `Math.sqrt` is never negative (`haversineA_mem_unit`); in binary64 the
  haversine term can exceed 1 by one rounding step for points that are nearly
  antipodal, and the code then returns `NaN`.  What is proved of the value of
  `calculateDistance` is proved of the real formula; what is proved of
  `isAtSchool` and `verifyLocationAndReturn` beyond that is about the comparison
  and the branches taken.
-/

namespace Dispen

/-! ## JSON values and objects -/

/-- JSON values held in record fields. -/
inductive Val where
  | null : Val
  | bool (b : Bool) : Val
  | num (n : Int) : Val
  | str (s : String) : Val
  deriving DecidableEq, Repr

/-- A JavaScript object holding JSON values: its own properties, in order. -/
abbrev Record := List (String × Val)

/-- Property read `r[k]`: `none` stands for `undefined`.  Where a key occurs more
than once the later occurrence is the one that counts, as in `JSON.parse`. -/
def getField : Record → String → Option Val
  | [], _ => none
  | (k', v) :: rest, k =>
    match getField rest k with
    | some w => some w
    | none => if k' = k then some v else none

/-- Whether `k` is an own property of the object. -/
def hasField (r : Record) (k : String) : Bool :=
  r.any (fun kv => decide (kv.1 = k))

/-- Property write `r[k] = v`: an existing property keeps its place and takes
the new value, a new property is added at the end. -/
def setField (r : Record) (k : String) (v : Val) : Record :=
  if hasField r k then r.map (fun kv => if kv.1 = k then (k, v) else kv)
  else r ++ [(k, v)]

/-- Object spread `{ ...old, ...updates }`: the properties of `updates` are
written onto a copy of `old`, in order. -/
def spread (old updates : Record) : Record :=
  updates.foldl (fun acc kv => setField acc kv.1 kv.2) old

/-! ## Numbers: binary64 rounding -/

/-- The exponent of the highest power of two that is at most `n`, found in at
most `fuel` halvings. -/
def log2From : Nat → Nat → Nat
  | 0, _ => 0
  | fuel + 1, n => if n < 2 then 0 else log2From fuel (n / 2) + 1

/-- The exponent of the highest power of two that is at most `n` (0 for `n = 0`). -/
def log2Floor (n : Nat) : Nat := log2From n n

/-- The binary64 value nearest to the natural number `n`, ties going to the even
significand; a result of `2 ^ 1024` or more stands for `Infinity`.  Applied to a
count of units of `2 ^ (-1074)` it is the rounding of a non-negative binary64
result, subnormal values included. -/
def roundToDouble (n : Nat) : Nat :=
  if n < 2 ^ 53 then n
  else
    let e := log2Floor n - 52
    let q := n / 2 ^ e
    let r := n % 2 ^ e
    if 2 ^ e < 2 * r ∨ (2 * r = 2 ^ e ∧ q % 2 = 1) then (q + 1) * 2 ^ e else q * 2 ^ e

/-- The largest power of ten that is at most `v`, found in at most `fuel` steps
from `acc`. -/
def pow10BelowFrom : Nat → Nat → Nat → Nat
  | 0, _, acc => acc
  | fuel + 1, v, acc => if acc * 10 ≤ v then pow10BelowFrom fuel v (acc * 10) else acc

/-- The largest power of ten that is at most `v` (for `v ≥ 1`). -/
def pow10Below (v : Nat) : Nat := pow10BelowFrom v v 1

/-- The first digit of `String(v)` for a binary64 integer `v ≥ 1e21`, which is
written in exponent form with the shortest digits that read back as `v`: the
first digit of `v`, or the next one when the next multiple of the leading power
of ten still rounds to `v` (as for `1e23`, whose binary64 value starts with 9). -/
def exponentLead (v : Nat) : Nat :=
  let q10 := pow10Below v
  let f := v / q10
  let e := log2Floor v - 52
  let h := 2 ^ (e - 1)
  let up := (f + 1) * q10
  if up < v + h ∨ (up = v + h ∧ (v / 2 ^ e) % 2 = 0) then (if f = 9 then 1 else f + 1) else f

/-! ## `parseInt(x, 10)` -/

/-- White space skipped by `parseInt` at the start of a string. -/
def isJsWhitespace (c : Char) : Bool :=
  c.val = 0x09 || c.val = 0x0A || c.val = 0x0B || c.val = 0x0C || c.val = 0x0D ||
  c.val = 0x20 || c.val = 0xA0 || c.val = 0x1680 ||
  (0x2000 ≤ c.val && c.val ≤ 0x200A) ||
  c.val = 0x2028 || c.val = 0x2029 || c.val = 0x202F || c.val = 0x205F ||
  c.val = 0x3000 || c.val = 0xFEFF

/-- The value of the longest run of decimal digits at the start of `cs`;
`none` (NaN) when `cs` does not start with a digit. -/
def leadingDigits (cs : List Char) : Option Nat :=
  match cs.takeWhile Char.isDigit with
  | [] => none
  | ds => some (ds.foldl (fun acc c => 10 * acc + (c.toNat - '0'.toNat)) 0)

/-- What `parseInt` returns: `NaN`, plus or minus `Infinity`, or a binary64
integer, given by its exact value. -/
inductive Parsed where
  | nan : Parsed
  | infinity (negative : Bool) : Parsed
  | int (n : Int) : Parsed
  deriving DecidableEq, Repr

/-- The argument of `getDispensationById` and `updateDispensationById`: a route
parameter (a string), or the number the `PATCH` handler parsed from it. -/
inductive IdArg where
  | str (s : String) : IdArg
  | num (n : Int) : IdArg
  | nan : IdArg
  | infinity (negative : Bool) : IdArg
  deriving DecidableEq, Repr

/-- The number for a digit run of value `digits` after a sign: the value is
rounded to binary64, and is infinite from `2 ^ 1024` on. -/
def digitsToNumber (negative : Bool) (digits : Option Nat) : Parsed :=
  match digits with
  | none => Parsed.nan
  | some n =>
    let v := roundToDouble n
    if 2 ^ 1024 ≤ v then Parsed.infinity negative
    else if negative then Parsed.int (-(v : Int)) else Parsed.int (v : Int)

/-- `parseInt(s, 10)` on a string. -/
def parseIntStr (s : String) : Parsed :=
  match s.toList.dropWhile isJsWhitespace with
  | '-' :: rest => digitsToNumber true (leadingDigits rest)
  | '+' :: rest => digitsToNumber false (leadingDigits rest)
  | cs => digitsToNumber false (leadingDigits cs)

/-- `parseInt(n, 10)` on a binary64 integer `n`, which reads `String(n)`: below
`1e21` that is the decimal numeral of `n` and gives back `n`; from `1e21` on it
is exponent form, of which `parseInt` reads the first digit only. -/
def parseIntNum (n : Int) : Int :=
  if n.natAbs < 10 ^ 21 then n
  else if n < 0 then -(exponentLead n.natAbs : Int) else (exponentLead n.natAbs : Int)

/-- `parseInt(id, 10)`.  `String(Infinity)` and `String(NaN)` have no leading
digit. -/
def parseInt10 : IdArg → Parsed
  | .str s => parseIntStr s
  | .num n => Parsed.int (parseIntNum n)
  | .nan => Parsed.nan
  | .infinity _ => Parsed.nan

/-- The number `parseInt(req.params.id, 10)` as the `PATCH` handler passes it on. -/
def parsedParam (s : String) : IdArg :=
  match parseIntStr s with
  | .int n => .num n
  | .nan => .nan
  | .infinity negative => .infinity negative

/-! ## Flat-file store (`db === 'file'`) -/

/-- The test `d.id === numId`. -/
def idIs (numId : Int) (d : Record) : Bool :=
  decide (getField d "id" = some (Val.num numId))

/-- `getDispensationById(id)`, flat-file variant; `none` stands for `null`.  An
infinite `numId` is `===` to no stored id, all of which are integers. -/
def getDispensationById (dispensations : List Record) (id : IdArg) : Option Record :=
  match parseInt10 id with
  | .nan => none
  | .infinity _ => none
  | .int numId => dispensations.find? (idIs numId)

/-- `addDispensation(d)`, flat-file variant: the record returned and the new
content of the file. -/
def addDispensation (dispensations : List Record) (d : Record) : Record × List Record :=
  (d, dispensations ++ [d])

/-- `Array.prototype.findIndex`; `none` stands for `-1`. -/
def findIndex (p : Record → Bool) : List Record → Option Nat
  | [] => none
  | d :: rest => if p d then some 0 else (findIndex p rest).map (· + 1)

/-- `updateDispensationById(id, updates)`, flat-file variant: the value returned
(`none` stands for `null`) and the new content of the file. -/
def updateDispensationById (dispensations : List Record) (id : IdArg) (updates : Record) :
    Option Record × List Record :=
  match parseInt10 id with
  | .nan => (none, dispensations)
  | .infinity _ => (none, dispensations)
  | .int numId =>
    match findIndex (idIs numId) dispensations with
    | none => (none, dispensations)
    | some idx =>
      match dispensations[idx]? with
      | none => (none, dispensations)
      | some old =>
        let merged := spread old updates
        (some merged, dispensations.set idx merged)

/-! ## Tracking codes -/

/-- `s.charAt(i)`: the one-character string at index `i`, the empty string when
`i` is out of range. -/
def charAt (s : String) (i : Int) : String :=
  if i < 0 then ""
  else
    match s.toList[i.toNat]? with
    | some c => String.singleton c
    | none => ""

/-- The alphabet `chars` of `generateTrackingCode`. -/
def trackingChars : String := "ABCDEFGHIJKLMNOPQRSTUVWXYZ0123456789"

/-- A binary64 value in `[0, 1)`: a multiple `m / 2 ^ e` of a power of two with
a significand `m` of at most 53 bits and `e ≤ 1074`, the smallest exponent of
the format.  These are the values `Math.random()` can return. -/
def IsBinary64 (r : ℚ) : Prop :=
  ∃ m e : Nat, m < 2 ^ 53 ∧ e ≤ 1074 ∧ r = (m : ℚ) / 2 ^ e

/-- The count of units of `2 ^ (-1074)` in a non-negative binary64 value `r`. -/
def binary64Units (r : ℚ) : Nat := ⌊r * 2 ^ 1074⌋₊

/-- `Math.floor(r * length)` for a binary64 `r` in `[0, 1)`: the product is
rounded to binary64 before the floor is taken. -/
def randomIndex (r : ℚ) (length : Nat) : Int :=
  ((roundToDouble (binary64Units r * length) / 2 ^ 1074 : Nat) : Int)

/-- `generateTrackingCode()` (the same function in `server.js` and `app.js`).
`rand i` is the value of the `i`-th call of `Math.random()`. -/
def generateTrackingCode (rand : Nat → ℚ) : String :=
  (List.range 6).foldl
    (fun code i => code ++ charAt trackingChars (randomIndex (rand i) trackingChars.length))
    "DSP-"

/-- An uppercase letter `A`-`Z` or a digit `0`-`9`. -/
def isCodeChar (c : Char) : Bool :=
  (decide ('A' ≤ c) && decide (c ≤ 'Z')) || (decide ('0' ≤ c) && decide (c ≤ '9'))

/-! ## Server: rate limiter and request handlers -/

/-- The file multer stored for the request (`req.file`). -/
structure UploadFile where
  path : String
  filename : String
  originalname : String
  deriving DecidableEq, Repr

/-- The parts of a `POST /dispensations` request the handler reads.  A form
field that was not sent is `none` (`undefined`). -/
structure SubmitRequest where
  ip : Option String
  remoteAddress : Option String
  studentName : Option String
  studentClass : Option String
  reason : Option String
  destination : Option String
  departureTime : Option String
  returnTime : Option String
  file : Option UploadFile

/-- The clock as the `POST` handler reads it: `Date.now()` in the throttle test,
in `recentSubmissions.set`, for the id, and `new Date().toISOString()`. -/
structure Clock where
  atCheck : Int
  atSet : Int
  atId : Int
  isoNow : String

/-- Server state: the `dispensations` of `db.json`, the `recentSubmissions` map
(caller identity to time of the last accepted submission) and the paths of the
files present in the uploads directory. -/
structure ServerState where
  dispensations : List Record
  recentSubmissions : String → Option Int
  uploads : List String

/-- Body of a response: a record, or `{ error: msg }`. -/
inductive Body where
  | record (r : Record) : Body
  | error (msg : String) : Body
  deriving DecidableEq, Repr

/-- An HTTP response. -/
structure Response where
  status : Nat
  body : Body
  deriving DecidableEq, Repr

/-- Messages handed to the Discord webhook (not awaited, failures swallowed). -/
inductive Outbound where
  | created (d : Record) : Outbound
  | decided (d : Record) (status : Option Val) (approver : Val) : Outbound
  deriving DecidableEq, Repr

/-- The expression `a || b` for an optional string `a`: `undefined` and the empty
string are falsy. -/
def strOr (a : Option String) (b : String) : String :=
  match a with
  | some s => if s = "" then b else s
  | none => b

/-- Truthiness of a JSON value read from a property. -/
def truthy : Option Val → Bool
  | none => false
  | some .null => false
  | some (.bool b) => b
  | some (.num n) => decide (n ≠ 0)
  | some (.str s) => decide (s ≠ "")

/-- The expression `v || d` for a property value `v`. -/
def valOr (v : Option Val) (d : Val) : Val :=
  match v with
  | some w => if truthy (some w) then w else d
  | none => d

/-- A property of an object literal whose value may be `undefined`. -/
def optField (k : String) (v : Option String) : Record :=
  match v with
  | some s => [(k, Val.str s)]
  | none => []

/-- `req.ip || req.connection?.remoteAddress || 'unknown'`. -/
def clientIP (req : SubmitRequest) : String :=
  strOr req.ip (strOr req.remoteAddress "unknown")

/-- The object literal `newDispensation` of the `POST` handler. -/
def newDispensation (req : SubmitRequest) (clock : Clock) (rand : Nat → ℚ) : Record :=
  [("id", Val.num clock.atId)]
  ++ optField "studentName" req.studentName
  ++ optField "studentClass" req.studentClass
  ++ optField "reason" req.reason
  ++ [("destination", Val.str (strOr req.destination ""))]
  ++ optField "departureTime" req.departureTime
  ++ optField "returnTime" req.returnTime
  ++ [("photoPath",
        match req.file with
        | some f => Val.str ("/uploads/" ++ f.filename)
        | none => Val.null),
      ("photoOriginalName",
        match req.file with
        | some f => Val.str f.originalname
        | none => Val.null),
      ("trackingCode", Val.str (generateTrackingCode rand)),
      ("status", Val.str "pending"),
      ("approvedBy", Val.null),
      ("createdAt", Val.str clock.isoNow),
      ("returnedAt", Val.null)]

/-- `recentSubmissions.set(ip, ts)`. -/
def mapSet (m : String → Option Int) (ip : String) (ts : Int) : String → Option Int :=
  fun k => if k = ip then some ts else m k

/-- The throttle test `last && (Date.now() - last) < 30000`. -/
def throttled (last : Option Int) (now : Int) : Bool :=
  match last with
  | none => false
  | some l => decide (l ≠ 0) && decide (now - l < 30000)

/-- `if (req.file && fs.existsSync(req.file.path)) fs.unlinkSync(req.file.path)`. -/
def discardUpload (uploads : List String) (file : Option UploadFile) : List String :=
  match file with
  | none => uploads
  | some f => if f.path ∈ uploads then uploads.filter (fun p => decide (p ≠ f.path)) else uploads

/-- The handler of `POST /dispensations` (storage and file system do not fail). -/
def postDispensation (s : ServerState) (req : SubmitRequest) (clock : Clock) (rand : Nat → ℚ) :
    Response × ServerState × List Outbound :=
  let ip := clientIP req
  let last := s.recentSubmissions ip
  if throttled last clock.atCheck then
    (⟨429, Body.error "Jangan Iseng Atuhh :("⟩,
     { s with uploads := discardUpload s.uploads req.file }, [])
  else
    let limiter := mapSet s.recentSubmissions ip clock.atSet
    let d := newDispensation req clock rand
    let added := addDispensation s.dispensations d
    (⟨201, Body.record d⟩,
     { s with dispensations := added.2, recentSubmissions := limiter },
     [Outbound.created d])

/-- The handler of `PATCH /dispensations/:id`. -/
def patchDispensation (s : ServerState) (idParam : String) (body : Record) :
    Response × ServerState × List Outbound :=
  let id := parsedParam idParam
  match getDispensationById s.dispensations id with
  | none => (⟨404, Body.error "Not found"⟩, s, [])
  | some existing =>
    let oldStatus := getField existing "status"
    match updateDispensationById s.dispensations id body with
    | (none, _) => (⟨500, Body.error "Gagal mengupdate dispensasi."⟩, s, [])
    | (some updated, dispensations) =>
      let st := getField updated "status"
      let out :=
        if oldStatus = some (Val.str "pending") ∧
            (st = some (Val.str "approved") ∨ st = some (Val.str "rejected")) then
          [Outbound.decided updated st (valOr (getField body "approvedBy") (Val.str "Guru"))]
        else []
      (⟨200, Body.record updated⟩, { s with dispensations := dispensations }, out)

/-- The periodic sweep of `recentSubmissions` (the `setInterval` callback) run at
clock value `now`: every entry with `now - ts > 60000` is deleted. -/
def sweepRecentSubmissions (m : String → Option Int) (now : Int) : String → Option Int :=
  fun ip =>
    match m ip with
    | none => none
    | some ts => if now - ts > 60000 then none else some ts

/-! ## Server: teachers -/

/-- A parameter of `req.query`: a string, or an array or nested object (which is
truthy and `===` to no stored value). -/
inductive QueryValue where
  | str (s : String) : QueryValue
  | other : QueryValue
  deriving DecidableEq, Repr

/-- Truthiness of `req.query.username` and `req.query.password`. -/
def queryTruthy : Option QueryValue → Bool
  | none => false
  | some (.str s) => decide (s ≠ "")
  | some .other => true

/-- The test `t.field === req.query.param` for a property value `v`. -/
def queryEq (v : Option Val) : Option QueryValue → Bool
  | some (.str s) => decide (v = some (Val.str s))
  | some .other => false
  | none => decide (v = none)

/-- `getTeachers()`, flat-file variant: `data.teachers || []`, with `none` for a
file that has no `teachers`. -/
def getTeachers (teachers : Option (List Record)) : List Record :=
  match teachers with
  | some ts => ts
  | none => []

/-- One property `k: t.k` of an object literal, as `res.json` sends it: left out
when `t.k` is `undefined`. -/
def pickField (t : Record) (k : String) : Record :=
  match getField t k with
  | some v => [(k, v)]
  | none => []

/-- The object `{ id: t.id, username: t.username, name: t.name, role: t.role }`. -/
def safeTeacher (t : Record) : Record :=
  pickField t "id" ++ pickField t "username" ++ pickField t "name" ++ pickField t "role"

/-- The handler of `GET /teachers` on the flat file: the array sent with
`res.json(safe)`. -/
def getTeachersRoute (teachers : Option (List Record)) (username password : Option QueryValue) :
    List Record :=
  let all := getTeachers teachers
  let filtered :=
    if queryTruthy username && queryTruthy password then
      all.filter (fun t =>
        queryEq (getField t "username") username && queryEq (getField t "password") password)
    else all
  filtered.map safeTeacher

/-! ## Client: teacher login -/

/-- `teacherLogin(username, password)` of `app.js` against the handler above;
`none` stands for `null`.  The two strings are put into the query string as they
are, so this is the call for strings without `&`, `=`, `#`, `%` or `+`, which
arrive in `req.query` unchanged (an empty one as the empty string).  The teacher
returned is the one stored as `currentTeacher`. -/
def teacherLogin (teachers : Option (List Record)) (username password : String) :
    Option Record :=
  let data :=
    getTeachersRoute teachers (some (QueryValue.str username)) (some (QueryValue.str password))
  if data.length > 0 then data[0]? else none

/-! ## Client: request bodies -/

/-- The JSON body `updateDispensationStatus(id, status, approvedBy)` sends. -/
def updateDispensationStatus (status : String) (approvedBy : Option String) : Record :=
  let update : Record := [("status", Val.str status)]
  match approvedBy with
  | some a => if a = "" then update else setField update "approvedBy" (Val.str a)
  | none => update

/-- The JSON body `markAsReturned(id)` sends; `isoNow` is `new Date().toISOString()`. -/
def markAsReturned (isoNow : String) : Record :=
  [("status", Val.str "completed"), ("returnedAt", Val.str isoNow)]

/-! ## Client: countdown and reminder -/

/-- The object `getTimeRemaining` returns. -/
structure TimeRemaining where
  total : Int
  hours : Int
  minutes : Int
  seconds : Int
  expired : Bool
  deriving DecidableEq, Repr

/-- `getTimeRemaining(targetTime)`; `now` and `target` are the two dates in
milliseconds.  `Math.floor(a / b)` is `Int.fdiv`, `%` is `Int.tmod`. -/
def getTimeRemaining (now target : Int) : TimeRemaining :=
  let diff := target - now
  if diff ≤ 0 then
    { total := 0, hours := 0, minutes := 0, seconds := 0, expired := true }
  else
    let hours := Int.fdiv diff (1000 * 60 * 60)
    let minutes := Int.fdiv (Int.tmod diff (1000 * 60 * 60)) (1000 * 60)
    let seconds := Int.fdiv (Int.tmod diff (1000 * 60)) 1000
    { total := diff, hours := hours, minutes := minutes, seconds := seconds, expired := false }

/-- `String(n).padStart(2, '0')`. -/
def pad2 (n : Int) : String :=
  let s := toString n
  if s.length < 2 then "0" ++ s else s

/-- `formatCountdown(remaining)`. -/
def formatCountdown (remaining : TimeRemaining) : String :=
  pad2 remaining.hours ++ ":" ++ pad2 remaining.minutes ++ ":" ++ pad2 remaining.seconds

/-- What one run of `checkReminder` does to the outside world; `notification` is
the call `sendNotification(title, body)`, `alertSound` the call `playAlertSound()`. -/
inductive ReminderEvent where
  | countdownText (text : String) : ReminderEvent
  | widgetWarning : ReminderEvent
  | notification (title body : String) : ReminderEvent
  | alertSound : ReminderEvent
  | onExpired : ReminderEvent
  deriving DecidableEq, Repr

/-- The page a reminder runs on: whether the elements `countdown` and
`timer-widget` exist and whether an `onExpired` callback was passed. -/
structure ReminderPage where
  hasCountdownEl : Bool
  hasTimerWidget : Bool
  hasOnExpired : Bool

/-- The two latches: `warningShown` belongs to one call of `startReminder`,
`notificationSent` is a variable of the module. -/
structure ReminderState where
  warningShown : Bool
  notificationSent : Bool
  deriving DecidableEq, Repr

/-- The title of the warning notification. -/
def warningTitle : String := "⏰ Pengingat"

/-- The title of the expired alert. -/
def expiredTitle : String := "⚠️ Waktu Habis!"

/-- The warning notification of `checkReminder`. -/
def warningNotification : ReminderEvent :=
  ReminderEvent.notification warningTitle "Waktu dispensasi akan habis dalam 5 menit."

/-- The expired alert of `checkReminder`. -/
def expiredNotification : ReminderEvent :=
  ReminderEvent.notification expiredTitle
    "Waktu dispensasi sudah habis. Segera kembali ke sekolah!"

/-- One run of `checkReminder` at clock value `now`. -/
def checkReminder (page : ReminderPage) (returnTime : Int) (st : ReminderState) (now : Int) :
    ReminderState × List ReminderEvent :=
  let reminderThreshold : Int := 5 * 60 * 1000
  let remaining := getTimeRemaining now returnTime
  let shown : List ReminderEvent :=
    if page.hasCountdownEl then [ReminderEvent.countdownText (formatCountdown remaining)] else []
  let widget : List ReminderEvent :=
    if page.hasTimerWidget then [ReminderEvent.widgetWarning] else []
  if remaining.expired then
    if !st.notificationSent then
      ({ st with notificationSent := true },
       shown ++ widget ++ [expiredNotification, ReminderEvent.alertSound]
         ++ (if page.hasOnExpired then [ReminderEvent.onExpired] else []))
    else (st, shown ++ widget)
  else if decide (remaining.total ≤ reminderThreshold) && !st.warningShown then
    ({ st with warningShown := true },
     shown ++ widget ++ [warningNotification, ReminderEvent.alertSound])
  else (st, shown)

/-- The call `startReminder(returnTime, onExpired)` at clock value `now`, with
`notificationSent` as the module holds it: a fresh `warningShown` and the first
run of `checkReminder`. -/
def startReminder (page : ReminderPage) (returnTime : Int) (notificationSent : Bool)
    (now : Int) : ReminderState × List ReminderEvent :=
  checkReminder page returnTime { warningShown := false, notificationSent := notificationSent } now

/-- The interval ticks after `startReminder`: `checkReminder` at each clock value
of `ticks` in turn; the events of each tick are kept apart. -/
def runTicks (page : ReminderPage) (returnTime : Int) :
    ReminderState → List Int → ReminderState × List (List ReminderEvent)
  | st, [] => (st, [])
  | st, now :: later =>
    let r := checkReminder page returnTime st now
    let rest := runTicks page returnTime r.1 later
    (rest.1, r.2 :: rest.2)

/-- `stopReminder()`: the interval is cleared and `notificationSent` is reset. -/
def stopReminder (st : ReminderState) : ReminderState :=
  { st with notificationSent := false }

/-! ## Client: geofence -/

/-- `Math.atan2(y, x)` on real numbers: the angle of the point `(x, y)`, in
`(-π, π]`, and `0` at the origin. -/
noncomputable def atan2 (y x : ℝ) : ℝ := Complex.arg ⟨x, y⟩

/-- The haversine term `a` of `calculateDistance`. -/
noncomputable def haversineA (lat1 lon1 lat2 lon2 : ℝ) : ℝ :=
  let dLat := (lat2 - lat1) * Real.pi / 180
  let dLon := (lon2 - lon1) * Real.pi / 180
  Real.sin (dLat / 2) * Real.sin (dLat / 2) +
    Real.cos (lat1 * Real.pi / 180) * Real.cos (lat2 * Real.pi / 180) *
    Real.sin (dLon / 2) * Real.sin (dLon / 2)

/-- `calculateDistance(lat1, lon1, lat2, lon2)` on real numbers: the formula of
the source with exact arithmetic, not its binary64 evaluation. -/
noncomputable def calculateDistance (lat1 lon1 lat2 lon2 : ℝ) : ℝ :=
  let R : ℝ := 6371000
  let a := haversineA lat1 lon1 lat2 lon2
  let c := 2 * atan2 (Real.sqrt a) (Real.sqrt (1 - a))
  R * c

/-- The constant `SCHOOL_LOCATION` (its numeric fields). -/
structure SchoolLocation where
  latitude : ℝ
  longitude : ℝ
  radiusMeters : ℝ

/-- `SCHOOL_LOCATION`. -/
noncomputable def SCHOOL_LOCATION : SchoolLocation :=
  { latitude := -6.8057694, longitude := 110.8430016, radiusMeters := 100 }

/-- The object `isAtSchool` returns. -/
structure AtSchool where
  isWithinRadius : Bool
  distance : Int
  requiredRadius : ℝ

/-- `isAtSchool(userLat, userLon)`; `Math.round(x)` is `⌊x + 1/2⌋`. -/
noncomputable def isAtSchool (userLat userLon : ℝ) : AtSchool :=
  let distance :=
    calculateDistance userLat userLon SCHOOL_LOCATION.latitude SCHOOL_LOCATION.longitude
  { isWithinRadius := decide (distance ≤ SCHOOL_LOCATION.radiusMeters),
    distance := ⌊distance + 1 / 2⌋,
    requiredRadius := SCHOOL_LOCATION.radiusMeters }

/-- The error codes of the geolocation interface. -/
inductive GeoError where
  | permissionDenied : GeoError
  | positionUnavailable : GeoError
  | timeout : GeoError
  | other : GeoError
  deriving DecidableEq, Repr

/-- What `navigator.geolocation.getCurrentPosition` delivers. -/
inductive GeoOutcome where
  | position (latitude longitude : ℝ) : GeoOutcome
  | error (code : GeoError) : GeoOutcome

/-- What `verifyLocationAndReturn` does to the outside world: the `PATCH` request
of `markAsReturned`, the class set on the `location-status` element, and the
three callbacks. -/
inductive ClientEffect where
  | patchRequest (dispensationId : Int) (body : Record) : ClientEffect
  | statusClass (cls : String) : ClientEffect
  | onSuccess (result : AtSchool) : ClientEffect
  | onFail (result : AtSchool) : ClientEffect
  | onLocationError (msg : String) : ClientEffect

/-- The message of the geolocation error callback. -/
def locationErrorMsg (code : GeoError) : String :=
  "Gagal mendapatkan lokasi. " ++
    match code with
    | .permissionDenied => "Izinkan akses lokasi."
    | .positionUnavailable => "Lokasi tidak tersedia."
    | .timeout => "Waktu habis."
    | .other => "Terjadi kesalahan."

/-- The callbacks `verifyLocationAndReturn` passes to `getCurrentPosition`, run on
`outcome`; `isoNow` is the date `markAsReturned` reads. -/
noncomputable def onGeoOutcome (hasStatusEl : Bool) (dispensationId : Int) (isoNow : String) :
    GeoOutcome → List ClientEffect
  | .position latitude longitude =>
    let result := isAtSchool latitude longitude
    if result.isWithinRadius then
      [ClientEffect.patchRequest dispensationId (markAsReturned isoNow)]
        ++ (if hasStatusEl then [ClientEffect.statusClass "alert alert-success"] else [])
        ++ [ClientEffect.onSuccess result]
    else
      (if hasStatusEl then [ClientEffect.statusClass "alert alert-danger"] else [])
        ++ [ClientEffect.onFail result]
  | .error code =>
    (if hasStatusEl then [ClientEffect.statusClass "alert alert-danger"] else [])
      ++ [ClientEffect.onLocationError (locationErrorMsg code)]

/-- `verifyLocationAndReturn(dispensationId, onSuccess, onFail, onLocationError)`;
`geolocation` is `navigator.geolocation` (`none` when the browser has none, else
what it delivers). -/
noncomputable def verifyLocationAndReturn (geolocation : Option GeoOutcome) (hasStatusEl : Bool)
    (dispensationId : Int) (isoNow : String) : List ClientEffect :=
  match geolocation with
  | none => [ClientEffect.onLocationError "Browser tidak mendukung GPS."]
  | some outcome =>
    (if hasStatusEl then [ClientEffect.statusClass "alert alert-warning"] else [])
      ++ onGeoOutcome hasStatusEl dispensationId isoNow outcome

/-! ## Example data -/

/-- A pending record, as `POST /dispensations` writes it. -/
def pendingRecord : Record :=
  [("id", Val.num 1700000000000), ("studentName", Val.str "Ani"),
   ("studentClass", Val.str "8A"), ("reason", Val.str "Sakit"),
   ("destination", Val.str ""), ("departureTime", Val.str "2023-11-14T08:00"),
   ("returnTime", Val.str "2023-11-14T09:00"), ("photoPath", Val.null),
   ("photoOriginalName", Val.null), ("trackingCode", Val.str "DSP-AB12CD"),
   ("status", Val.str "pending"), ("approvedBy", Val.null),
   ("createdAt", Val.str "2023-11-14T22:13:20.000Z"), ("returnedAt", Val.null)]

/-- The server holding `pendingRecord` and nothing else. -/
def pendingServer : ServerState :=
  { dispensations := [pendingRecord], recentSubmissions := fun _ => none, uploads := [] }

/-- A submission from address `ip` by student `name`, without attachment. -/
def submissionFrom (ip name : String) : SubmitRequest :=
  { ip := some ip, remoteAddress := none, studentName := some name,
    studentClass := some "8A", reason := some "Sakit", destination := none,
    departureTime := some "2023-11-14T08:00", returnTime := some "2023-11-14T09:00",
    file := none }

/-- A clock that stays at one millisecond during a request. -/
def clockAt (t : Int) : Clock :=
  { atCheck := t, atSet := t, atId := t, isoNow := "2023-11-14T22:13:20.000Z" }

/-- A server with no record, no limiter entry and no upload. -/
def emptyServer : ServerState :=
  { dispensations := [], recentSubmissions := fun _ => none, uploads := [] }

/-- The server after two submissions from two addresses in the same millisecond. -/
def twinServer : ServerState :=
  (postDispensation
    (postDispensation emptyServer (submissionFrom "10.0.0.1" "Ani")
      (clockAt 1700000000000) (fun _ => 0)).2.1
    (submissionFrom "10.0.0.2" "Budi") (clockAt 1700000000000) (fun _ => 0)).2.1

/-- The file multer stored for a second submission. -/
def photoUpload : UploadFile :=
  { path := "/tmp/uploads/dispen_1700000010000.png",
    filename := "dispen_1700000010000.png", originalname := "surat.png" }

/-- A submission from address `ip` by student `name` that carries `photoUpload`. -/
def submissionWithPhoto (ip name : String) : SubmitRequest :=
  { submissionFrom ip name with file := some photoUpload }

/-- A server with no record and no limiter entry, on whose disk multer has put
`photoUpload`. -/
def serverWithUpload : ServerState :=
  { dispensations := [], recentSubmissions := fun _ => none, uploads := [photoUpload.path] }

/-- A page with the countdown, the timer widget and an expiry callback. -/
def reminderPage : ReminderPage :=
  { hasCountdownEl := true, hasTimerWidget := true, hasOnExpired := true }

/-- Six draws of `Math.random()`: the binary64 value next below 1/6, whose
product with 36 rounds up to 6, then 1/8, 2/8, 3/8, 4/8, 5/8. -/
def sixDraws (i : Nat) : ℚ :=
  if i = 0 then (6004799503160661 : ℚ) / 2 ^ 55 else (i : ℚ) / 2 ^ 3

/-- The latitude of the point `m` metres due north of the school centre. -/
noncomputable def northOfSchool (m : ℝ) : ℝ :=
  SCHOOL_LOCATION.latitude + m / 6371000 * 180 / Real.pi

/-- A stored teacher. -/
def teacherBudi : Record :=
  [("id", Val.num 1), ("username", Val.str "budi"), ("password", Val.str "rahasia"),
   ("name", Val.str "Pak Budi"), ("role", Val.str "teacher")]

/-- Another stored teacher. -/
def teacherSari : Record :=
  [("id", Val.num 2), ("username", Val.str "sari"), ("password", Val.str "kunci"),
   ("name", Val.str "Bu Sari"), ("role", Val.str "teacher")]

/-- A stored teacher with the username and password of `teacherBudi`. -/
def teacherBudiAgain : Record :=
  [("id", Val.num 3), ("username", Val.str "budi"), ("password", Val.str "rahasia"),
   ("name", Val.str "Budi Santoso"), ("role", Val.str "admin")]

/-- A limiter map with one entry, for address 10.0.0.1 at time 1700000000000. -/
def oneEntryMap : String → Option Int :=
  mapSet (fun _ => none) "10.0.0.1" 1700000000000

/-- A record whose id is `1e21`. -/
def hugeIdRecord : Record :=
  [("id", Val.num (10 ^ 21)), ("studentName", Val.str "Ani"), ("status", Val.str "pending")]

/-- An approved record whose id is 1. -/
def firstRecord : Record :=
  [("id", Val.num 1), ("studentName", Val.str "Ani"), ("status", Val.str "approved"),
   ("approvedBy", Val.str "BuGuru"), ("returnedAt", Val.null)]

/-- The server holding `firstRecord` and nothing else. -/
def firstServer : ServerState :=
  { dispensations := [firstRecord], recentSubmissions := fun _ => none, uploads := [] }

/-! ## Objects: reading after writing -/

theorem getField_cons (k' : String) (v : Val) (rest : Record) (k : String) :
    getField ((k', v) :: rest) k =
      match getField rest k with
      | some w => some w
      | none => if k' = k then some v else none := rfl

theorem getField_append (a b : Record) (k : String) :
    getField (a ++ b) k =
      match getField b k with
      | some w => some w
      | none => getField a k := by
  induction a with
  | nil =>
    cases h : getField b k <;> simp [getField, h]
  | cons kv rest ih =>
    obtain ⟨k', v⟩ := kv
    rw [List.cons_append, getField_cons, ih, getField_cons]
    cases getField b k <;> rfl

theorem getField_eq_none_of_hasField_false (r : Record) (k : String)
    (h : hasField r k = false) : getField r k = none := by
  induction r with
  | nil => rfl
  | cons kv rest ih =>
    obtain ⟨k', v⟩ := kv
    have hhas : hasField ((k', v) :: rest) k = (decide (k' = k) || hasField rest k) := by
      simp [hasField]
    rw [hhas, Bool.or_eq_false_iff, decide_eq_false_iff_not] at h
    rw [getField_cons, ih h.2, if_neg h.1]

theorem getField_map_write (r : Record) (k : String) (v : Val) (j : String) :
    getField (r.map (fun kv => if kv.1 = k then (k, v) else kv)) j =
      if j = k then (if hasField r k then some v else none) else getField r j := by
  induction r with
  | nil => simp [getField, hasField]
  | cons kv rest ih =>
    obtain ⟨k', w⟩ := kv
    have hhas : hasField ((k', w) :: rest) k = (decide (k' = k) || hasField rest k) := by
      simp [hasField]
    have hnone := getField_eq_none_of_hasField_false rest k
    rw [List.map_cons, hhas]
    by_cases hk : k' = k
    · have hhead : (if (k', w).1 = k then (k, v) else (k', w)) = (k, v) := by simp [hk]
      rw [hhead, getField_cons, ih, getField_cons]
      have hjk : j = k ↔ k = j := eq_comm
      by_cases hj : j = k <;> cases hr : hasField rest k <;> cases hg : getField rest j <;>
        simp_all
    · have hhead : (if (k', w).1 = k then (k, v) else (k', w)) = (k', w) := by simp [hk]
      rw [hhead, getField_cons, ih, getField_cons]
      by_cases hj : j = k <;> cases hr : hasField rest k <;> cases hg : getField rest j <;>
        simp_all

theorem getField_setField (r : Record) (k : String) (v : Val) (j : String) :
    getField (setField r k v) j = if j = k then some v else getField r j := by
  unfold setField
  by_cases h : hasField r k = true
  · rw [if_pos h, getField_map_write]
    simp [h]
  · rw [if_neg h, getField_append]
    by_cases hj : j = k
    · subst hj
      simp [getField]
    · have : ¬ k = j := fun e => hj e.symm
      simp [getField, hj, this]

/-- Reading a property of `{ ...old, ...updates }`: the value in `updates` when
`updates` has the property, the value in `old` otherwise. -/
theorem getField_spread (old updates : Record) (k : String) :
    getField (spread old updates) k =
      match getField updates k with
      | some v => some v
      | none => getField old k := by
  unfold spread
  induction updates generalizing old with
  | nil => simp [getField]
  | cons kv rest ih =>
    obtain ⟨k', v⟩ := kv
    rw [List.foldl_cons, ih]
    simp only [getField]
    cases getField rest k with
    | some w => rfl
    | none =>
      simp only [getField_setField]
      by_cases h : k = k'
      · subst h; simp
      · have : ¬ k' = k := fun e => h e.symm
        simp [h, this]

/-! ## Store: the index `findIndex` returns -/

theorem findIndex_eq_none (p : Record → Bool) (l : List Record) :
    findIndex p l = none ↔ ∀ d ∈ l, p d = false := by
  induction l with
  | nil => simp [findIndex]
  | cons d rest ih =>
    by_cases h : p d = true
    · simp [findIndex, h]
    · simp only [Bool.not_eq_true] at h
      simp [findIndex, h, ih]

theorem findIndex_eq_some (p : Record → Bool) (l : List Record) (i : Nat)
    (h : findIndex p l = some i) :
    ∃ d, l[i]? = some d ∧ p d = true ∧ l.find? p = some d ∧
      ∀ j e, j < i → l[j]? = some e → p e = false := by
  induction l generalizing i with
  | nil => simp [findIndex] at h
  | cons d rest ih =>
    by_cases hd : p d = true
    · simp only [findIndex, hd, if_true, Option.some.injEq] at h
      subst h
      exact ⟨d, by simp, hd, by simp [List.find?_cons, hd], by intro j e hj; omega⟩
    · simp only [Bool.not_eq_true] at hd
      simp only [findIndex, hd, Bool.false_eq_true, if_false, Option.map_eq_some'] at h
      obtain ⟨i', hi', rfl⟩ := h
      obtain ⟨e, he, hpe, hfind, hfirst⟩ := ih i' hi'
      refine ⟨e, by simpa using he, hpe, by simp [List.find?_cons, hd, hfind], ?_⟩
      intro j e' hj hje
      cases j with
      | zero =>
        simp only [List.getElem?_cons_zero, Option.some.injEq] at hje
        subst hje; exact hd
      | succ j' =>
        simp only [List.getElem?_cons_succ] at hje
        exact hfirst j' e' (by omega) hje

theorem findIndex_set (p : Record → Bool) (l : List Record) (i : Nat) (m : Record)
    (h : findIndex p l = some i) (hm : p m = true) :
    findIndex p (l.set i m) = some i ∧ (l.set i m).find? p = some m := by
  induction l generalizing i with
  | nil => simp [findIndex] at h
  | cons d rest ih =>
    by_cases hd : p d = true
    · simp only [findIndex, hd, if_true, Option.some.injEq] at h
      subst h
      simp [findIndex, hm, List.find?_cons]
    · simp only [Bool.not_eq_true] at hd
      simp only [findIndex, hd, Bool.false_eq_true, if_false, Option.map_eq_some'] at h
      obtain ⟨i', hi', rfl⟩ := h
      obtain ⟨h1, h2⟩ := ih i' hi'
      simp [findIndex, hd, h1, h2, List.find?_cons]

/-! ## Store: reading and updating by id -/

theorem getDispensationById_eq_some (ds : List Record) (id : IdArg) (existing : Record)
    (h : getDispensationById ds id = some existing) :
    ∃ n idx, parseInt10 id = Parsed.int n ∧ findIndex (idIs n) ds = some idx ∧
      ds[idx]? = some existing ∧ idIs n existing = true := by
  unfold getDispensationById at h
  cases hp : parseInt10 id with
  | nan => simp [hp] at h
  | infinity negative => simp [hp] at h
  | int n =>
    simp only [hp] at h
    cases hf : findIndex (idIs n) ds with
    | none =>
      have hall := (findIndex_eq_none (idIs n) ds).1 hf
      have := List.find?_some h
      have hmem := List.mem_of_find?_eq_some h
      rw [hall existing hmem] at this
      exact absurd this (by simp)
    | some idx =>
      obtain ⟨d, hd, hpd, hfind, _⟩ := findIndex_eq_some (idIs n) ds idx hf
      rw [h] at hfind
      cases hfind
      exact ⟨n, idx, rfl, hf, hd, hpd⟩

theorem updateDispensationById_found (ds : List Record) (id : IdArg) (updates : Record)
    (n : Int) (idx : Nat) (old : Record) (hp : parseInt10 id = Parsed.int n)
    (hf : findIndex (idIs n) ds = some idx) (ho : ds[idx]? = some old) :
    updateDispensationById ds id updates =
      (some (spread old updates), ds.set idx (spread old updates)) := by
  simp [updateDispensationById, hp, hf, ho]

theorem patchDispensation_found (s : ServerState) (idParam : String) (body existing : Record)
    (h : getDispensationById s.dispensations (parsedParam idParam) = some existing) :
    ∃ n idx, parseInt10 (parsedParam idParam) = Parsed.int n ∧
      findIndex (idIs n) s.dispensations = some idx ∧
      s.dispensations[idx]? = some existing ∧ idIs n existing = true ∧
      patchDispensation s idParam body =
        (⟨200, Body.record (spread existing body)⟩,
         { s with dispensations := s.dispensations.set idx (spread existing body) },
         if getField existing "status" = some (Val.str "pending") ∧
             (getField (spread existing body) "status" = some (Val.str "approved") ∨
              getField (spread existing body) "status" = some (Val.str "rejected")) then
           [Outbound.decided (spread existing body) (getField (spread existing body) "status")
             (valOr (getField body "approvedBy") (Val.str "Guru"))]
         else []) := by
  obtain ⟨n, idx, hp, hf, ho, hid⟩ := getDispensationById_eq_some _ _ _ h
  refine ⟨n, idx, hp, hf, ho, hid, ?_⟩
  have hu := updateDispensationById_found s.dispensations (parsedParam idParam) body n idx
    existing hp hf ho
  simp only [patchDispensation, h, hu]

theorem patchDispensation_then_get (s : ServerState) (idParam : String)
    (body existing : Record)
    (h : getDispensationById s.dispensations (parsedParam idParam) = some existing)
    (hid : getField body "id" = none) :
    getDispensationById (patchDispensation s idParam body).2.1.dispensations
      (parsedParam idParam) = some (spread existing body) := by
  obtain ⟨n, idx, hp, hf, _, hn, hpatch⟩ := patchDispensation_found s idParam body existing h
  have hm : idIs n (spread existing body) = true := by
    have : getField (spread existing body) "id" = getField existing "id" := by
      rw [getField_spread, hid]
    simpa [idIs, this] using hn
  rw [hpatch]
  simp only [getDispensationById, hp]
  exact (findIndex_set (idIs n) s.dispensations idx _ hf hm).2

theorem getField_updateDispensationStatus_id (status : String) (approvedBy : Option String) :
    getField (updateDispensationStatus status approvedBy) "id" = none := by
  unfold updateDispensationStatus
  cases approvedBy with
  | none => simp [getField]
  | some a =>
    by_cases ha : a = ""
    · simp [ha, getField]
    · simp [ha, getField_setField, getField]

theorem getField_updateDispensationStatus_status (status : String)
    (approvedBy : Option String) :
    getField (updateDispensationStatus status approvedBy) "status" =
      some (Val.str status) := by
  unfold updateDispensationStatus
  cases approvedBy with
  | none => simp [getField]
  | some a =>
    by_cases ha : a = ""
    · simp [ha, getField]
    · simp [ha, getField_setField, getField]

theorem getField_updateDispensationStatus_approvedBy (status : String)
    (approvedBy : Option String) :
    getField (updateDispensationStatus status approvedBy) "approvedBy" =
      match approvedBy with
      | some a => if a = "" then none else some (Val.str a)
      | none => none := by
  unfold updateDispensationStatus
  cases approvedBy with
  | none => simp [getField]
  | some a =>
    by_cases ha : a = ""
    · simp [ha, getField]
    · simp [ha, getField_setField]

/-! ## Lifecycle: what `PATCH /dispensations/:id` does to the status -/

/-- C1, the claim as stated fails: a `PATCH` with status "completed" on a record
whose status is "pending" is answered 200 and the stored record is "completed",
though it was never "approved". -/
theorem patch_pending_to_completed :
    getField pendingRecord "status" = some (Val.str "pending") ∧
    (patchDispensation pendingServer "1700000000000" (markAsReturned "T")).1.status = 200 ∧
    (getDispensationById
        (patchDispensation pendingServer "1700000000000" (markAsReturned "T")).2.1.dispensations
        (IdArg.str "1700000000000")).bind (fun d => getField d "status")
      = some (Val.str "completed") := by
  decide!

/-- C1 (amended): the handler of `PATCH /dispensations/:id` checks no transition
rule.  For every stored record found by the id (the first record whose id is the
parsed number) and every request body, the answer is 200 with the merged record
`{ ...existing, ...body }`; that record replaces the stored one, the other
records, the limiter and the uploads stay as they were; every field of the body
is taken over and every other field kept, so the status is the status of the
body when the body has one, whatever the current status is, and the current
status otherwise. -/
theorem patchDispensation_status_unguarded (s : ServerState) (idParam : String)
    (body existing : Record)
    (h : getDispensationById s.dispensations (parsedParam idParam) = some existing) :
    ∃ n idx,
      parseInt10 (parsedParam idParam) = Parsed.int n ∧
      s.dispensations[idx]? = some existing ∧
      getField existing "id" = some (Val.num n) ∧
      (∀ j e, j < idx → s.dispensations[j]? = some e → getField e "id" ≠ some (Val.num n)) ∧
      (patchDispensation s idParam body).1 = ⟨200, Body.record (spread existing body)⟩ ∧
      (patchDispensation s idParam body).2.1.dispensations
        = s.dispensations.set idx (spread existing body) ∧
      (patchDispensation s idParam body).2.1.recentSubmissions = s.recentSubmissions ∧
      (patchDispensation s idParam body).2.1.uploads = s.uploads ∧
      (∀ k, getField (spread existing body) k =
        match getField body k with
        | some v => some v
        | none => getField existing k) ∧
      getField (spread existing body) "status" =
        (match getField body "status" with
         | some v => some v
         | none => getField existing "status") := by
  obtain ⟨n, idx, hp, hf, ho, hid, hpatch⟩ := patchDispensation_found s idParam body existing h
  obtain ⟨_, _, _, _, hfirst⟩ := findIndex_eq_some (idIs n) s.dispensations idx hf
  refine ⟨n, idx, hp, ho, by simpa [idIs] using hid, ?_, ?_, ?_, ?_, ?_,
    getField_spread existing body, getField_spread existing body "status"⟩
  · intro j e hj hje
    simpa [idIs] using hfirst j e hj hje
  · rw [hpatch]
  · rw [hpatch]
  · rw [hpatch]
  · rw [hpatch]

theorem patchDispensation_status_unguarded_witness :
    getDispensationById pendingServer.dispensations (parsedParam "1700000000000")
      = some pendingRecord ∧
    (patchDispensation pendingServer "1700000000000" (markAsReturned "T")).1
      = ⟨200, Body.record (spread pendingRecord (markAsReturned "T"))⟩ ∧
    getField (spread pendingRecord (markAsReturned "T")) "status"
      = some (Val.str "completed") ∧
    getField (spread pendingRecord (markAsReturned "T")) "studentName"
      = some (Val.str "Ani") := by
  obtain ⟨n, idx, _, _, _, _, h5, _, _, _, h9, _⟩ :=
    patchDispensation_status_unguarded pendingServer "1700000000000" (markAsReturned "T")
      pendingRecord (by decide!)
  exact ⟨by decide!, h5, by rw [h9]; rfl, by rw [h9]; rfl⟩

/-- C2, the claim as stated fails: after "approved" by BuGuru, a second `PATCH`
with "rejected" by PakGuru is answered 200, and the stored status and approvedBy
are those of the second request. -/
theorem second_decision_accepted :
    getField pendingRecord "status" = some (Val.str "pending") ∧
    (getDispensationById
        (patchDispensation pendingServer "1700000000000"
          (updateDispensationStatus "approved" (some "BuGuru"))).2.1.dispensations
        (IdArg.str "1700000000000")).map
        (fun d => (getField d "status", getField d "approvedBy"))
      = some (some (Val.str "approved"), some (Val.str "BuGuru")) ∧
    (patchDispensation
        (patchDispensation pendingServer "1700000000000"
          (updateDispensationStatus "approved" (some "BuGuru"))).2.1
        "1700000000000" (updateDispensationStatus "rejected" (some "PakGuru"))).1.status = 200 ∧
    (getDispensationById
        (patchDispensation
          (patchDispensation pendingServer "1700000000000"
            (updateDispensationStatus "approved" (some "BuGuru"))).2.1
          "1700000000000"
          (updateDispensationStatus "rejected" (some "PakGuru"))).2.1.dispensations
        (IdArg.str "1700000000000")).map
        (fun d => (getField d "status", getField d "approvedBy"))
      = some (some (Val.str "rejected"), some (Val.str "PakGuru")) := by
  decide!

/-- C2 (amended): for every stored record found by the id, when
`updateDispensationStatus` is applied twice to that id, the second request is
answered 200 with the stored record: its status is the status of the second
request, its approvedBy is the approver of the second request when that names
one (else what the first request left), and the second request sends a Discord
notice exactly when the first one had set the status "pending" and the second
sets "approved" or "rejected". -/
theorem second_decision_overwrites (s : ServerState) (idParam : String) (existing : Record)
    (status1 status2 : String) (by1 by2 : Option String)
    (h : getDispensationById s.dispensations (parsedParam idParam) = some existing) :
    ∃ stored,
      (patchDispensation
          (patchDispensation s idParam (updateDispensationStatus status1 by1)).2.1
          idParam (updateDispensationStatus status2 by2)).1 = ⟨200, Body.record stored⟩ ∧
      getDispensationById
          (patchDispensation
            (patchDispensation s idParam (updateDispensationStatus status1 by1)).2.1
            idParam (updateDispensationStatus status2 by2)).2.1.dispensations
          (parsedParam idParam) = some stored ∧
      getField stored "status" = some (Val.str status2) ∧
      getField stored "approvedBy" =
        (match by2 with
         | some b =>
           if b = "" then
             getField (spread existing (updateDispensationStatus status1 by1)) "approvedBy"
           else some (Val.str b)
         | none =>
           getField (spread existing (updateDispensationStatus status1 by1)) "approvedBy") ∧
      ((patchDispensation
          (patchDispensation s idParam (updateDispensationStatus status1 by1)).2.1
          idParam (updateDispensationStatus status2 by2)).2.2 ≠ [] ↔
        (status1 = "pending" ∧ (status2 = "approved" ∨ status2 = "rejected"))) := by
  have h1 := patchDispensation_then_get s idParam (updateDispensationStatus status1 by1)
    existing h (getField_updateDispensationStatus_id status1 by1)
  have h2 := patchDispensation_then_get _ idParam (updateDispensationStatus status2 by2)
    _ h1 (getField_updateDispensationStatus_id status2 by2)
  obtain ⟨n, idx, _, _, _, _, hpatch⟩ :=
    patchDispensation_found _ idParam (updateDispensationStatus status2 by2) _ h1
  refine ⟨_, ?_, h2, ?_, ?_, ?_⟩
  · rw [hpatch]
  · rw [getField_spread, getField_updateDispensationStatus_status]
  · rw [getField_spread, getField_updateDispensationStatus_approvedBy]
    cases by2 with
    | none => rfl
    | some b => by_cases hb : b = "" <;> simp [hb]
  · rw [hpatch]
    have hst1 : getField (spread existing (updateDispensationStatus status1 by1)) "status"
        = some (Val.str status1) := by
      rw [getField_spread, getField_updateDispensationStatus_status]
    have hst2 : getField (spread (spread existing (updateDispensationStatus status1 by1))
        (updateDispensationStatus status2 by2)) "status" = some (Val.str status2) := by
      rw [getField_spread, getField_updateDispensationStatus_status]
    simp only [hst1, hst2, Option.some.injEq, Val.str.injEq]
    split_ifs with hc
    · simp [hc]
    · simp [hc]

theorem second_decision_overwrites_witness :
    getDispensationById pendingServer.dispensations (parsedParam "1700000000000")
      = some pendingRecord ∧
    ∃ stored,
      (patchDispensation
          (patchDispensation pendingServer "1700000000000"
            (updateDispensationStatus "approved" (some "BuGuru"))).2.1
          "1700000000000" (updateDispensationStatus "rejected" (some "PakGuru"))).1
        = ⟨200, Body.record stored⟩ ∧
      getField stored "status" = some (Val.str "rejected") ∧
      getField stored "approvedBy" = some (Val.str "PakGuru") := by
  refine ⟨by decide!, ?_⟩
  obtain ⟨stored, h1, _, h3, h4, _⟩ :=
    second_decision_overwrites pendingServer "1700000000000" pendingRecord
      "approved" "rejected" (some "BuGuru") (some "PakGuru") (by decide!)
  exact ⟨stored, h1, h3, by simpa using h4⟩

/-! ## Store: round trip and update -/

/-- C6, the claim as stated fails.  Two submissions handled in the same
millisecond get the same id; both are answered 201, and reading that id after
the second `addDispensation` returns the first record, not the second.  And a
record whose id is `1e21` is not found by `getDispensationById(d.id)` even in an
empty store, since `parseInt` reads `1` from `String(1e21)`. -/
theorem getDispensationById_returns_older_twin :
    (postDispensation
      (postDispensation emptyServer (submissionFrom "10.0.0.1" "Ani")
        (clockAt 1700000000000) (fun _ => 0)).2.1
      (submissionFrom "10.0.0.2" "Budi") (clockAt 1700000000000) (fun _ => 0)).1.status = 201 ∧
    getField (newDispensation (submissionFrom "10.0.0.2" "Budi") (clockAt 1700000000000)
      (fun _ => 0)) "id" = some (Val.num 1700000000000) ∧
    getField (newDispensation (submissionFrom "10.0.0.2" "Budi") (clockAt 1700000000000)
      (fun _ => 0)) "studentName" = some (Val.str "Budi") ∧
    twinServer.dispensations =
      (addDispensation
        [newDispensation (submissionFrom "10.0.0.1" "Ani") (clockAt 1700000000000) (fun _ => 0)]
        (newDispensation (submissionFrom "10.0.0.2" "Budi") (clockAt 1700000000000)
          (fun _ => 0))).2 ∧
    (getDispensationById twinServer.dispensations (IdArg.num 1700000000000)).bind
      (fun d => getField d "studentName") = some (Val.str "Ani") ∧
    getField hugeIdRecord "id" = some (Val.num (10 ^ 21)) ∧
    getDispensationById (addDispensation [] hugeIdRecord).2 (IdArg.num (10 ^ 21)) = none := by
  refine ⟨by decide, by decide, by decide, rfl, by decide!, by decide!, by decide!⟩

theorem parseInt10_num (n : Int) (h : n.natAbs < 10 ^ 21) :
    parseInt10 (IdArg.num n) = Parsed.int n := by
  show Parsed.int (parseIntNum n) = Parsed.int n
  unfold parseIntNum
  rw [if_pos h]

/-- C6 (amended): for every record `d` whose id is an integer below `1e21` in
absolute value, and every state of the flat-file store holding no record with
that id, after `addDispensation(d)` the call `getDispensationById(d.id)` returns
`d` itself, hence a record equal to `d` field for field, also when the store
already held other records. -/
theorem getDispensationById_addDispensation (ds : List Record) (d : Record) (n : Int)
    (hid : getField d "id" = some (Val.num n))
    (hsmall : n.natAbs < 10 ^ 21)
    (hfresh : ∀ e ∈ ds, getField e "id" ≠ some (Val.num n)) :
    (addDispensation ds d).1 = d ∧
    getDispensationById (addDispensation ds d).2 (IdArg.num n) = some d ∧
    ∀ k, (getDispensationById (addDispensation ds d).2 (IdArg.num n)).bind
      (fun r => getField r k) = getField d k := by
  have hnone : ds.find? (idIs n) = none := by
    rw [List.find?_eq_none]
    intro e he
    simpa [idIs] using hfresh e he
  have hget : getDispensationById (addDispensation ds d).2 (IdArg.num n) = some d := by
    simp [getDispensationById, parseInt10_num n hsmall, addDispensation, List.find?_append,
      hnone, idIs, hid]
  refine ⟨rfl, hget, ?_⟩
  intro k
  rw [hget]
  rfl

theorem getDispensationById_addDispensation_witness :
    getDispensationById
      (addDispensation [pendingRecord]
        (newDispensation (submissionFrom "10.0.0.2" "Budi") (clockAt 1700000000001)
          (fun _ => 0))).2 (IdArg.num 1700000000001)
      = some (newDispensation (submissionFrom "10.0.0.2" "Budi") (clockAt 1700000000001)
          (fun _ => 0)) :=
  (getDispensationById_addDispensation [pendingRecord]
    (newDispensation (submissionFrom "10.0.0.2" "Budi") (clockAt 1700000000001) (fun _ => 0))
    1700000000001 (by decide) (by decide) (by decide)).2.1

/-- C7, an input on which the code departs from the claim.  The store holds one
record, with id 1 and status "approved"; no stored record has the id `1e21`.
`updateDispensationById(1e21, updates)` does not return `null`: `parseInt` reads
`1` from `String(1e21)`, the record with id 1 is returned merged with the
updates and is rewritten in the store.  The call is the one the handler makes
for `PATCH /dispensations/1000000000000000000000`, which is answered 200. -/
theorem updateDispensationById_huge_id :
    (∀ d ∈ [firstRecord], getField d "id" ≠ some (Val.num (10 ^ 21))) ∧
    parsedParam "1000000000000000000000" = IdArg.num (10 ^ 21) ∧
    parseInt10 (IdArg.num (10 ^ 21)) = Parsed.int 1 ∧
    (updateDispensationById [firstRecord] (IdArg.num (10 ^ 21)) (markAsReturned "T")).1
      = some (spread firstRecord (markAsReturned "T")) ∧
    (updateDispensationById [firstRecord] (IdArg.num (10 ^ 21)) (markAsReturned "T")).2
      = [spread firstRecord (markAsReturned "T")] ∧
    getField firstRecord "status" = some (Val.str "approved") ∧
    getField (spread firstRecord (markAsReturned "T")) "status"
      = some (Val.str "completed") ∧
    (patchDispensation firstServer "1000000000000000000000" (markAsReturned "T")).1
      = ⟨200, Body.record (spread firstRecord (markAsReturned "T"))⟩ ∧
    (patchDispensation firstServer "1000000000000000000000"
        (markAsReturned "T")).2.1.dispensations
      = [spread firstRecord (markAsReturned "T")] := by
  refine ⟨by decide, by decide!, by decide!, by decide!, by decide!, by decide, by decide,
    by decide!, by decide!⟩

/-- What `updateDispensationById` does on the flat file in terms of the number
`n = parseInt(id, 10)`; for a numeric id below `1e21` in absolute value `n` is
the id itself.  When `n` is not a finite number or no stored record has id `n`,
it returns `null` and leaves the store as it was.  Otherwise it returns the
first stored record with id `n` merged with the updates: a field named in
`updates` has the value given there, every other field its old value; the merged
record takes the place of the old one, and the other records, their order and
the number of records stay as they were. -/
theorem updateDispensationById_merges (ds : List Record) (id : IdArg) (updates : Record) :
    (∀ m : Int, m.natAbs < 10 ^ 21 → parseInt10 (IdArg.num m) = Parsed.int m) ∧
    ((∀ n, parseInt10 id = Parsed.int n → ∀ d ∈ ds, getField d "id" ≠ some (Val.num n)) →
      updateDispensationById ds id updates = (none, ds)) ∧
    (∀ n, parseInt10 id = Parsed.int n → (∃ d ∈ ds, getField d "id" = some (Val.num n)) →
      ∃ idx old merged,
        ds[idx]? = some old ∧ getField old "id" = some (Val.num n) ∧
        (∀ j e, j < idx → ds[j]? = some e → getField e "id" ≠ some (Val.num n)) ∧
        updateDispensationById ds id updates = (some merged, ds.set idx merged) ∧
        (∀ k, getField merged k =
          match getField updates k with
          | some v => some v
          | none => getField old k) ∧
        (ds.set idx merged).length = ds.length ∧
        (ds.set idx merged)[idx]? = some merged ∧
        ∀ j, j ≠ idx → (ds.set idx merged)[j]? = ds[j]?) := by
  refine ⟨parseInt10_num, ?_, ?_⟩
  · intro hno
    unfold updateDispensationById
    cases hp : parseInt10 id with
    | nan => rfl
    | infinity negative => rfl
    | int n =>
      have hnone : findIndex (idIs n) ds = none := by
        rw [findIndex_eq_none]
        intro d hd
        simpa [idIs] using hno n hp d hd
      simp [hnone]
  · intro n hp ⟨d, hd, hdid⟩
    cases hf : findIndex (idIs n) ds with
    | none =>
      have := (findIndex_eq_none (idIs n) ds).1 hf d hd
      simp [idIs, hdid] at this
    | some idx =>
      obtain ⟨old, ho, hpo, _, hfirst⟩ := findIndex_eq_some (idIs n) ds idx hf
      have hlt : idx < ds.length := by
        rcases List.getElem?_eq_some_iff.1 ho with ⟨hlt, _⟩
        exact hlt
      refine ⟨idx, old, spread old updates, ho, by simpa [idIs] using hpo, ?_,
        updateDispensationById_found ds id updates n idx old hp hf ho,
        getField_spread old updates, List.length_set _ _ _,
        List.getElem?_set_self hlt, ?_⟩
      · intro j e hj hje
        simpa [idIs] using hfirst j e hj hje
      · intro j hj
        exact List.getElem?_set_ne (fun e => hj e.symm)

theorem updateDispensationById_merges_witness :
    updateDispensationById [pendingRecord] (IdArg.num 7) (markAsReturned "T")
      = (none, [pendingRecord]) ∧
    ∃ idx old merged,
      [pendingRecord][idx]? = some old ∧
      updateDispensationById [pendingRecord] (IdArg.num 1700000000000) (markAsReturned "T")
        = (some merged, [pendingRecord].set idx merged) ∧
      getField merged "status" = some (Val.str "completed") ∧
      getField merged "studentName" = getField old "studentName" := by
  have hw := updateDispensationById_merges [pendingRecord]
  have h7 : parseInt10 (IdArg.num 7) = Parsed.int 7 :=
    (hw (IdArg.num 7) []).1 7 (by decide)
  have hid : parseInt10 (IdArg.num 1700000000000) = Parsed.int 1700000000000 :=
    (hw (IdArg.num 7) []).1 1700000000000 (by decide)
  refine ⟨(hw (IdArg.num 7) (markAsReturned "T")).2.1 ?_, ?_⟩
  · intro n hn d hd
    rw [h7] at hn
    cases hn
    simp only [List.mem_singleton] at hd
    subst hd
    decide
  · obtain ⟨idx, old, merged, h1, _, _, h4, h5, _⟩ :=
      (hw (IdArg.num 1700000000000) (markAsReturned "T")).2.2 1700000000000 hid
        ⟨pendingRecord, by simp, by decide⟩
    refine ⟨idx, old, merged, h1, h4, ?_, ?_⟩
    · rw [h5]; rfl
    · rw [h5]; rfl

/-! ## Rate limiter -/

theorem not_mem_discardUpload (uploads : List String) (f : UploadFile) :
    f.path ∉ discardUpload uploads (some f) := by
  unfold discardUpload
  by_cases h : f.path ∈ uploads
  · simp [h]
  · simp [h]

theorem postDispensation_accepted (s : ServerState) (req : SubmitRequest) (clock : Clock)
    (rand : Nat → ℚ) (h : (postDispensation s req clock rand).1.status = 201) :
    (postDispensation s req clock rand).2.1 =
      { s with
        dispensations := s.dispensations ++ [newDispensation req clock rand],
        recentSubmissions := mapSet s.recentSubmissions (clientIP req) clock.atSet } := by
  unfold postDispensation at h ⊢
  by_cases ht : throttled (s.recentSubmissions (clientIP req)) clock.atCheck = true
  · simp [ht] at h
  · simp [ht, addDispensation]

theorem postDispensation_throttled (s : ServerState) (req : SubmitRequest) (clock : Clock)
    (rand : Nat → ℚ)
    (h : throttled (s.recentSubmissions (clientIP req)) clock.atCheck = true) :
    postDispensation s req clock rand =
      (⟨429, Body.error "Jangan Iseng Atuhh :("⟩,
       { s with uploads := discardUpload s.uploads req.file }, []) := by
  simp [postDispensation, h]

/-- C5: a submission at `t1 > 0` from some identity was accepted (answered 201;
the handler stamped it at `clock1.atSet`, not before `t1`); a second submission
from the same identity is tested at `clock2.atCheck` with
`clock2.atCheck - t1 < 30000`.  Then the second one is answered 429, the store
holds the same records, the limiter map is unchanged and still holds the stamp
of the first submission for that identity, no Discord notice is sent, and the
file attached to the second submission is not on disk afterwards. -/
theorem second_submission_throttled (s : ServerState) (req1 req2 : SubmitRequest)
    (clock1 clock2 : Clock) (rand1 rand2 : Nat → ℚ) (t1 : Int)
    (hsame : clientIP req2 = clientIP req1)
    (haccepted : (postDispensation s req1 clock1 rand1).1.status = 201)
    (hpos : 0 < t1) (hstamp : t1 ≤ clock1.atSet)
    (hwindow : clock2.atCheck - t1 < 30000) :
    (postDispensation (postDispensation s req1 clock1 rand1).2.1 req2 clock2 rand2).1.status
      = 429 ∧
    (postDispensation (postDispensation s req1 clock1 rand1).2.1 req2 clock2
        rand2).2.1.dispensations
      = (postDispensation s req1 clock1 rand1).2.1.dispensations ∧
    (postDispensation (postDispensation s req1 clock1 rand1).2.1 req2 clock2
        rand2).2.1.recentSubmissions
      = (postDispensation s req1 clock1 rand1).2.1.recentSubmissions ∧
    (postDispensation (postDispensation s req1 clock1 rand1).2.1 req2 clock2
        rand2).2.1.recentSubmissions (clientIP req2) = some clock1.atSet ∧
    (postDispensation (postDispensation s req1 clock1 rand1).2.1 req2 clock2 rand2).2.2 = [] ∧
    (match req2.file with
     | some f =>
       f.path ∉ (postDispensation (postDispensation s req1 clock1 rand1).2.1 req2 clock2
         rand2).2.1.uploads
     | none => True) := by
  have hs1 := postDispensation_accepted s req1 clock1 rand1 haccepted
  have hlast : (postDispensation s req1 clock1 rand1).2.1.recentSubmissions (clientIP req2)
      = some clock1.atSet := by
    rw [hs1, hsame]
    simp [mapSet]
  have hthr : throttled
      ((postDispensation s req1 clock1 rand1).2.1.recentSubmissions (clientIP req2))
      clock2.atCheck = true := by
    rw [hlast]
    have h0 : clock1.atSet ≠ 0 := by omega
    have h1 : clock2.atCheck - clock1.atSet < 30000 := by omega
    simp [throttled, h0, h1]
  rw [postDispensation_throttled _ req2 clock2 rand2 hthr]
  refine ⟨rfl, rfl, rfl, hlast, rfl, ?_⟩
  cases hf : req2.file with
  | none => trivial
  | some f => exact not_mem_discardUpload _ f

theorem second_submission_throttled_witness :
    photoUpload.path ∈ serverWithUpload.uploads ∧
    (postDispensation
      (postDispensation serverWithUpload (submissionFrom "10.0.0.1" "Ani")
        (clockAt 1700000000000) (fun _ => 0)).2.1
      (submissionWithPhoto "10.0.0.1" "Ani") (clockAt 1700000010000) (fun _ => 0)).1.status
      = 429 ∧
    photoUpload.path ∉
      (postDispensation
        (postDispensation serverWithUpload (submissionFrom "10.0.0.1" "Ani")
          (clockAt 1700000000000) (fun _ => 0)).2.1
        (submissionWithPhoto "10.0.0.1" "Ani") (clockAt 1700000010000)
        (fun _ => 0)).2.1.uploads := by
  have h := second_submission_throttled serverWithUpload (submissionFrom "10.0.0.1" "Ani")
    (submissionWithPhoto "10.0.0.1" "Ani") (clockAt 1700000000000) (clockAt 1700000010000)
    (fun _ => 0) (fun _ => 0) 1700000000000 (by decide) (by decide) (by decide) (by decide)
    (by decide)
  exact ⟨by decide, h.1, h.2.2.2.2.2⟩


/-! ## Tracking code format -/

theorem charAt_trackingChars (n : Nat) (h : n < 36) :
    ∃ c, charAt trackingChars (n : Int) = String.singleton c ∧ isCodeChar c = true := by
  interval_cases n <;> exact ⟨_, rfl, by decide⟩

theorem log2From_spec (fuel n : Nat) (hn : 1 ≤ n) (hf : n ≤ fuel) :
    2 ^ log2From fuel n ≤ n ∧ n < 2 ^ (log2From fuel n + 1) := by
  induction fuel generalizing n with
  | zero => omega
  | succ fuel ih =>
    unfold log2From
    by_cases h2 : n < 2
    · rw [if_pos h2]
      constructor
      · simpa using hn
      · simpa using h2
    · rw [if_neg h2]
      have h := ih (n / 2) (by omega) (by omega)
      constructor
      · rw [pow_succ]; omega
      · rw [pow_succ]; omega

theorem log2Floor_spec (n : Nat) (hn : 1 ≤ n) :
    2 ^ log2Floor n ≤ n ∧ n < 2 ^ (log2Floor n + 1) :=
  log2From_spec n n hn (le_refl n)

theorem binary64Units_eq (m e : Nat) (he : e ≤ 1074) :
    binary64Units ((m : ℚ) / 2 ^ e) = m * 2 ^ (1074 - e) := by
  unfold binary64Units
  have h : (m : ℚ) / 2 ^ e * 2 ^ 1074 = ((m * 2 ^ (1074 - e) : Nat) : ℚ) := by
    have hp : (2 : ℚ) ^ 1074 = 2 ^ e * 2 ^ (1074 - e) := by
      rw [← pow_add]; congr 1; omega
    rw [hp]
    push_cast
    field_simp
    ring
  rw [h, Nat.floor_natCast]

theorem pow_split (a b : Nat) : (2 : Nat) ^ (a + b) = 2 ^ a * 2 ^ b := pow_add 2 a b

/-- A binary64 draw below one is at most `1 - 2 ^ (-53)`; in units of
`2 ^ (-1074)`, with `p = 2 ^ 1021`. -/
theorem binary64Units_le (r : ℚ) (hb : IsBinary64 r) (h1 : r < 1) :
    ∃ p : Nat, p = 2 ^ 1021 ∧ binary64Units r + p ≤ 2 ^ 53 * p := by
  obtain ⟨m, e, hm, he, rfl⟩ := hb
  refine ⟨2 ^ 1021, rfl, ?_⟩
  rw [binary64Units_eq m e he]
  have hlt : m < 2 ^ e := by
    have hpos : (0 : ℚ) < 2 ^ e := by positivity
    rw [div_lt_one hpos] at h1
    exact_mod_cast h1
  by_cases hj : 1021 ≤ 1074 - e
  · obtain ⟨d, hd⟩ : ∃ d, 1074 - e = d + 1021 := ⟨1074 - e - 1021, by omega⟩
    rw [hd, pow_add, ← Nat.mul_assoc]
    have hc : m * 2 ^ d < 2 ^ 53 := by
      have h53 : e + d = 53 := by omega
      calc m * 2 ^ d < 2 ^ e * 2 ^ d := Nat.mul_lt_mul_of_pos_right hlt (by positivity)
        _ = 2 ^ 53 := by rw [← pow_add, h53]
    have : (m * 2 ^ d + 1) * 2 ^ 1021 ≤ 2 ^ 53 * 2 ^ 1021 :=
      Nat.mul_le_mul_right _ hc
    calc m * 2 ^ d * 2 ^ 1021 + 2 ^ 1021 = (m * 2 ^ d + 1) * 2 ^ 1021 := by ring
      _ ≤ 2 ^ 53 * 2 ^ 1021 := this
  · have hj2 : 1074 - e ≤ 1020 := by omega
    have h1 : m * 2 ^ (1074 - e) ≤ 2 ^ 53 * 2 ^ 1020 :=
      Nat.mul_le_mul (le_of_lt hm) (Nat.pow_le_pow_right (by norm_num) hj2)
    have h2 : (2 : Nat) ^ 1021 = 2 * 2 ^ 1020 := by rw [pow_succ, Nat.mul_comm]
    rw [h2]
    generalize (2 : Nat) ^ 1020 = P at *
    generalize m * 2 ^ (1074 - e) = K at *
    omega

/-- The product of a binary64 draw below one with 36 rounds to a binary64 value
below 36: the draw is at most `1 - 2 ^ (-53)`, the exact product at most
`36 - 36 * 2 ^ (-53)`, and the spacing of binary64 values just below 36 is
`2 ^ (-47)`, so that rounding adds less than `32 * 2 ^ (-53)`. -/
theorem roundToDouble_draw (k P : Nat) (hP : P = 2 ^ 1021) (hk : k + P ≤ 2 ^ 53 * P) :
    roundToDouble (k * 36) < 36 * (2 ^ 53 * P) := by
  have hPpos : 0 < P := by rw [hP]; positivity
  have hn : k * 36 + 36 * P ≤ 36 * (2 ^ 53 * P) := by omega
  unfold roundToDouble
  by_cases hsmall : k * 36 < 2 ^ 53
  · rw [if_pos hsmall]; omega
  · rw [if_neg hsmall]
    obtain ⟨hlo, hhi⟩ := log2Floor_spec (k * 36) (by omega)
    generalize log2Floor (k * 36) = L at hlo hhi ⊢
    generalize k * 36 = n at hsmall hn hlo hhi ⊢
    have h1080 : (2 : Nat) ^ 1080 = 2 ^ 59 * P := by rw [hP, ← pow_split]
    have hL : L < 1080 := by
      apply (Nat.pow_lt_pow_iff_right (a := 2) (by norm_num)).1
      rw [h1080]
      omega
    have hL53 : 53 ≤ L := by
      have : (2 : Nat) ^ 53 < 2 ^ (L + 1) := by omega
      have := (Nat.pow_lt_pow_iff_right (a := 2) (by norm_num)).1 this
      omega
    have hdm := Nat.div_add_mod n (2 ^ (L - 52))
    have hr : n % 2 ^ (L - 52) < 2 ^ (L - 52) := Nat.mod_lt _ (by positivity)
    show (if 2 ^ (L - 52) < 2 * (n % 2 ^ (L - 52)) ∨
        (2 * (n % 2 ^ (L - 52)) = 2 ^ (L - 52) ∧ n / 2 ^ (L - 52) % 2 = 1)
        then (n / 2 ^ (L - 52) + 1) * 2 ^ (L - 52) else n / 2 ^ (L - 52) * 2 ^ (L - 52))
        < 36 * (2 ^ 53 * P)
    have hmul : (n / 2 ^ (L - 52) + 1) * 2 ^ (L - 52)
        = 2 ^ (L - 52) * (n / 2 ^ (L - 52)) + 2 ^ (L - 52) := by ring
    have hmul2 : n / 2 ^ (L - 52) * 2 ^ (L - 52) = 2 ^ (L - 52) * (n / 2 ^ (L - 52)) :=
      Nat.mul_comm _ _
    rw [hmul, hmul2]
    generalize 2 ^ (L - 52) * (n / 2 ^ (L - 52)) = Q at hdm ⊢
    by_cases hcase : L ≤ 1078
    · have he : (2 : Nat) ^ (L - 52) ≤ 32 * P := by
        have h1026 : (2 : Nat) ^ 1026 = 2 ^ 5 * P := by rw [hP, ← pow_split]
        have : (2 : Nat) ^ (L - 52) ≤ 2 ^ 1026 :=
          Nat.pow_le_pow_right (by norm_num) (by omega)
        omega
      have hn2 : n < 2 ^ 58 * P := by
        have h1079 : (2 : Nat) ^ 1079 = 2 ^ 58 * P := by rw [hP, ← pow_split]
        have : (2 : Nat) ^ (L + 1) ≤ 2 ^ 1079 :=
          Nat.pow_le_pow_right (by norm_num) (by omega)
        omega
      generalize (2 : Nat) ^ (L - 52) = E at *
      split_ifs <;> omega
    · have hL2 : L - 52 = 1027 := by omega
      have he : (2 : Nat) ^ (L - 52) = 2 ^ 6 * P := by
        rw [hL2, hP, ← pow_split]
      rw [he] at hdm hr ⊢
      generalize n % 2 ^ (L - 52) = r at *
      split_ifs with hc <;> omega

theorem trackingChars_length : trackingChars.length = 36 := by decide

theorem randomIndex_draw (r : ℚ) (hb : IsBinary64 r) (h1 : r < 1) :
    ∃ n : Nat, n < 36 ∧ randomIndex r trackingChars.length = (n : Int) := by
  refine ⟨roundToDouble (binary64Units r * 36) / 2 ^ 1074, ?_, ?_⟩
  · obtain ⟨P, hP, hk⟩ := binary64Units_le r hb h1
    have h := roundToDouble_draw (binary64Units r) P hP hk
    have h1074 : (2 : Nat) ^ 1074 = 2 ^ 53 * P := by rw [hP, ← pow_split]
    rw [Nat.div_lt_iff_lt_mul (by positivity), h1074]
    exact h
  · rw [trackingChars_length]
    rfl

theorem generateTrackingCode_unfold (rand : Nat → ℚ) : generateTrackingCode rand =
    "DSP-" ++ charAt trackingChars (randomIndex (rand 0) trackingChars.length)
     ++ charAt trackingChars (randomIndex (rand 1) trackingChars.length)
     ++ charAt trackingChars (randomIndex (rand 2) trackingChars.length)
     ++ charAt trackingChars (randomIndex (rand 3) trackingChars.length)
     ++ charAt trackingChars (randomIndex (rand 4) trackingChars.length)
     ++ charAt trackingChars (randomIndex (rand 5) trackingChars.length) := by
  simp [generateTrackingCode, List.range_succ]

theorem generateTrackingCode_chars (rand : Nat → ℚ)
    (h : ∀ i, i < 6 → IsBinary64 (rand i) ∧ rand i < 1) :
    ∃ c0 c1 c2 c3 c4 c5,
      (generateTrackingCode rand).toList = "DSP-".toList ++ [c0, c1, c2, c3, c4, c5] ∧
      isCodeChar c0 = true ∧ isCodeChar c1 = true ∧ isCodeChar c2 = true ∧
      isCodeChar c3 = true ∧ isCodeChar c4 = true ∧ isCodeChar c5 = true := by
  have key : ∀ i, i < 6 → ∃ c,
      charAt trackingChars (randomIndex (rand i) trackingChars.length) = String.singleton c ∧
      isCodeChar c = true := by
    intro i hi
    obtain ⟨n, hn, hfl⟩ := randomIndex_draw (rand i) (h i hi).1 (h i hi).2
    rw [hfl]
    exact charAt_trackingChars n hn
  obtain ⟨c0, e0, a0⟩ := key 0 (by norm_num)
  obtain ⟨c1, e1, a1⟩ := key 1 (by norm_num)
  obtain ⟨c2, e2, a2⟩ := key 2 (by norm_num)
  obtain ⟨c3, e3, a3⟩ := key 3 (by norm_num)
  obtain ⟨c4, e4, a4⟩ := key 4 (by norm_num)
  obtain ⟨c5, e5, a5⟩ := key 5 (by norm_num)
  refine ⟨c0, c1, c2, c3, c4, c5, ?_, a0, a1, a2, a3, a4, a5⟩
  rw [generateTrackingCode_unfold, e0, e1, e2, e3, e4, e5]
  simp [String.toList, String.data_append, String.singleton]

/-- C9: when each of the six draws of `Math.random()` is a binary64 value in
`[0, 1)`, `generateTrackingCode` returns a string of length 10 that starts with
`DSP-` and whose last six characters are each an uppercase letter or a digit;
every index `Math.floor(r * 36)`, the product rounded to binary64, lies in
`0..35`, so that `charAt` never yields the empty string. -/
theorem generateTrackingCode_format (rand : Nat → ℚ)
    (h : ∀ i, i < 6 → IsBinary64 (rand i) ∧ rand i < 1) :
    (generateTrackingCode rand).length = 10 ∧
    (generateTrackingCode rand).toList.take 4 = "DSP-".toList ∧
    ((generateTrackingCode rand).toList.drop 4).length = 6 ∧
    (∀ c ∈ (generateTrackingCode rand).toList.drop 4, isCodeChar c = true) ∧
    (∀ i, i < 6 →
      0 ≤ randomIndex (rand i) trackingChars.length ∧
      randomIndex (rand i) trackingChars.length ≤ 35 ∧
      charAt trackingChars (randomIndex (rand i) trackingChars.length) ≠ "") := by
  obtain ⟨c0, c1, c2, c3, c4, c5, hl, a0, a1, a2, a3, a4, a5⟩ :=
    generateTrackingCode_chars rand h
  have hlen : (generateTrackingCode rand).length = 10 := by
    show (generateTrackingCode rand).toList.length = 10
    rw [hl]; rfl
  refine ⟨hlen, ?_, ?_, ?_, ?_⟩
  · rw [hl]; rfl
  · rw [hl]; rfl
  · rw [hl]
    intro c hc
    have : c ∈ [c0, c1, c2, c3, c4, c5] := hc
    simp only [List.mem_cons, List.mem_singleton, List.not_mem_nil, or_false] at this
    rcases this with rfl | rfl | rfl | rfl | rfl | rfl <;> assumption
  · intro i hi
    obtain ⟨n, hn, hfl⟩ := randomIndex_draw (rand i) (h i hi).1 (h i hi).2
    obtain ⟨c, hc, _⟩ := charAt_trackingChars n hn
    rw [hfl, hc]
    refine ⟨by omega, by omega, ?_⟩
    intro heq
    have := congrArg String.length heq
    simp [String.singleton] at this

theorem randomIndex_eq (m e : Nat) (he : e ≤ 1074) (r : ℚ) (hr : r = (m : ℚ) / 2 ^ e) :
    randomIndex r trackingChars.length
      = ((roundToDouble (m * 2 ^ (1074 - e) * 36) / 2 ^ 1074 : Nat) : Int) := by
  rw [hr, trackingChars_length]
  unfold randomIndex
  rw [binary64Units_eq m e he]

/-- The first of `sixDraws` is the binary64 value next below 1/6: the exact
product with 36 is below 6, the binary64 product is 6. -/
theorem randomIndex_rounds_up :
    sixDraws 0 * 36 < 6 ∧ randomIndex (sixDraws 0) trackingChars.length = 6 := by
  constructor
  · norm_num [sixDraws]
  · rw [randomIndex_eq 6004799503160661 55 (by norm_num) (sixDraws 0) (by norm_num [sixDraws])]
    decide!

theorem generateTrackingCode_sixDraws : generateTrackingCode sixDraws = "DSP-GEJNSW" := by
  have h0 : randomIndex (sixDraws 0) trackingChars.length = ((6 : Nat) : Int) := by
    rw [randomIndex_eq 6004799503160661 55 (by norm_num) (sixDraws 0) (by norm_num [sixDraws])]
    decide!
  have h1 : randomIndex (sixDraws 1) trackingChars.length = ((4 : Nat) : Int) := by
    rw [randomIndex_eq 1 3 (by norm_num) (sixDraws 1) (by norm_num [sixDraws])]
    decide!
  have h2 : randomIndex (sixDraws 2) trackingChars.length = ((9 : Nat) : Int) := by
    rw [randomIndex_eq 2 3 (by norm_num) (sixDraws 2) (by norm_num [sixDraws])]
    decide!
  have h3 : randomIndex (sixDraws 3) trackingChars.length = ((13 : Nat) : Int) := by
    rw [randomIndex_eq 3 3 (by norm_num) (sixDraws 3) (by norm_num [sixDraws])]
    decide!
  have h4 : randomIndex (sixDraws 4) trackingChars.length = ((18 : Nat) : Int) := by
    rw [randomIndex_eq 4 3 (by norm_num) (sixDraws 4) (by norm_num [sixDraws])]
    decide!
  have h5 : randomIndex (sixDraws 5) trackingChars.length = ((22 : Nat) : Int) := by
    rw [randomIndex_eq 5 3 (by norm_num) (sixDraws 5) (by norm_num [sixDraws])]
    decide!
  rw [generateTrackingCode_unfold, h0, h1, h2, h3, h4, h5]
  decide

theorem sixDraws_range : ∀ i, i < 6 → IsBinary64 (sixDraws i) ∧ sixDraws i < 1 := by
  intro i hi
  interval_cases i
  · exact ⟨⟨6004799503160661, 55, by norm_num, by norm_num, by norm_num [sixDraws]⟩,
      by norm_num [sixDraws]⟩
  · exact ⟨⟨1, 3, by norm_num, by norm_num, by norm_num [sixDraws]⟩, by norm_num [sixDraws]⟩
  · exact ⟨⟨2, 3, by norm_num, by norm_num, by norm_num [sixDraws]⟩, by norm_num [sixDraws]⟩
  · exact ⟨⟨3, 3, by norm_num, by norm_num, by norm_num [sixDraws]⟩, by norm_num [sixDraws]⟩
  · exact ⟨⟨4, 3, by norm_num, by norm_num, by norm_num [sixDraws]⟩, by norm_num [sixDraws]⟩
  · exact ⟨⟨5, 3, by norm_num, by norm_num, by norm_num [sixDraws]⟩, by norm_num [sixDraws]⟩

theorem generateTrackingCode_format_witness :
    (∀ i, i < 6 → IsBinary64 (sixDraws i) ∧ sixDraws i < 1) ∧
    generateTrackingCode sixDraws = "DSP-GEJNSW" ∧
    (generateTrackingCode sixDraws).length = 10 ∧
    (∀ c ∈ (generateTrackingCode sixDraws).toList.drop 4, isCodeChar c = true) :=
  ⟨sixDraws_range, generateTrackingCode_sixDraws,
   (generateTrackingCode_format sixDraws sixDraws_range).1,
   (generateTrackingCode_format sixDraws sixDraws_range).2.2.2.1⟩

/-! ## Reminder latches -/

theorem checkReminder_warned (page : ReminderPage) (returnTime : Int) (st : ReminderState)
    (now : Int) (h : st.warningShown = true) :
    (checkReminder page returnTime st now).1.warningShown = true ∧
    (checkReminder page returnTime st now).2.count warningNotification = 0 := by
  obtain ⟨hasCountdownEl, hasTimerWidget, hasOnExpired⟩ := page
  obtain ⟨warningShown, notificationSent⟩ := st
  simp only at h
  subst h
  unfold checkReminder
  cases hasCountdownEl <;> cases hasTimerWidget <;> cases hasOnExpired <;>
    cases notificationSent <;> cases he : (getTimeRemaining now returnTime).expired <;>
    simp [he, List.count_cons, warningNotification, expiredNotification, warningTitle,
      expiredTitle]

theorem runTicks_warned (page : ReminderPage) (returnTime : Int) (st : ReminderState)
    (ticks : List Int) (h : st.warningShown = true) :
    ∀ evs ∈ (runTicks page returnTime st ticks).2, evs.count warningNotification = 0 := by
  induction ticks generalizing st with
  | nil => simp [runTicks]
  | cons now later ih =>
    have hc := checkReminder_warned page returnTime st now h
    intro evs hevs
    simp only [runTicks, List.mem_cons] at hevs
    rcases hevs with rfl | hevs
    · exact hc.2
    · exact ih _ hc.1 evs hevs

theorem checkReminder_first_warning (page : ReminderPage) (returnTime : Int)
    (notificationSent : Bool) (now : Int)
    (hpos : 0 < returnTime - now) (hle : returnTime - now ≤ 5 * 60 * 1000) :
    (startReminder page returnTime notificationSent now).1.warningShown = true ∧
    (startReminder page returnTime notificationSent now).2.count warningNotification = 1 := by
  obtain ⟨hasCountdownEl, hasTimerWidget, hasOnExpired⟩ := page
  have hnot : ¬ returnTime - now ≤ 0 := by omega
  have hle' : returnTime - now ≤ 300000 := by omega
  unfold startReminder checkReminder
  cases hasCountdownEl <;> cases hasTimerWidget <;>
    simp [getTimeRemaining, hnot, hle', List.count_cons, warningNotification,
      expiredNotification, warningTitle, expiredTitle]

/-- The number of expired alerts a state can still fire. -/
theorem checkReminder_expired_budget (page : ReminderPage) (returnTime : Int)
    (st : ReminderState) (now : Int) :
    (checkReminder page returnTime st now).2.count expiredNotification
      + (if (checkReminder page returnTime st now).1.notificationSent then 0 else 1)
      ≤ (if st.notificationSent then 0 else 1) := by
  obtain ⟨hasCountdownEl, hasTimerWidget, hasOnExpired⟩ := page
  obtain ⟨warningShown, notificationSent⟩ := st
  unfold checkReminder
  cases hasCountdownEl <;> cases hasTimerWidget <;> cases hasOnExpired <;>
    cases notificationSent <;> cases warningShown <;>
    cases he : (getTimeRemaining now returnTime).expired <;>
    by_cases hr : (getTimeRemaining now returnTime).total ≤ 300000 <;>
    simp [he, hr, List.count_cons, warningNotification, expiredNotification, warningTitle,
      expiredTitle]

theorem runTicks_expired_budget (page : ReminderPage) (returnTime : Int)
    (st : ReminderState) (ticks : List Int) :
    (runTicks page returnTime st ticks).2.flatten.count expiredNotification
      ≤ (if st.notificationSent then 0 else 1) := by
  induction ticks generalizing st with
  | nil => simp [runTicks]
  | cons now later ih =>
    have hc := checkReminder_expired_budget page returnTime st now
    have hi := ih (checkReminder page returnTime st now).1
    simp only [runTicks, List.flatten_cons, List.count_append]
    omega

/-- C10: a reminder started by `startReminder` whose remaining time at the first
check is positive and at most five minutes fires the warning notification once
on that first check and on no later tick, whatever the later clock values are;
and for every reminder the expired alert fires at most once over the first check
and all later ticks. -/
theorem reminder_fires_once (page : ReminderPage) (returnTime : Int) (notificationSent : Bool)
    (now : Int) (ticks : List Int) :
    (0 < returnTime - now → returnTime - now ≤ 5 * 60 * 1000 →
      (startReminder page returnTime notificationSent now).2.count warningNotification = 1 ∧
      ∀ evs ∈ (runTicks page returnTime
          (startReminder page returnTime notificationSent now).1 ticks).2,
        evs.count warningNotification = 0) ∧
    ((startReminder page returnTime notificationSent now).2 ++
      (runTicks page returnTime
        (startReminder page returnTime notificationSent now).1 ticks).2.flatten).count
      expiredNotification ≤ 1 := by
  constructor
  · intro hpos hle
    have h := checkReminder_first_warning page returnTime notificationSent now hpos hle
    exact ⟨h.2, runTicks_warned page returnTime _ ticks h.1⟩
  · have hc := checkReminder_expired_budget page returnTime
      { warningShown := false, notificationSent := notificationSent } now
    have hr := runTicks_expired_budget page returnTime
      (startReminder page returnTime notificationSent now).1 ticks
    rw [List.count_append]
    unfold startReminder at hr ⊢
    split_ifs at hc hr <;> omega

theorem reminder_fires_once_witness :
    (startReminder reminderPage 1700000240000 false 1700000000000).2.count
      warningNotification = 1 ∧
    (∀ evs ∈ (runTicks reminderPage 1700000240000
        (startReminder reminderPage 1700000240000 false 1700000000000).1
        [1700000001000, 1700000002000, 1700000240000, 1700000241000]).2,
      evs.count warningNotification = 0) ∧
    ((runTicks reminderPage 1700000240000
        (startReminder reminderPage 1700000240000 false 1700000000000).1
        [1700000001000, 1700000002000, 1700000240000, 1700000241000]).2.map
      (fun evs => evs.count expiredNotification)) = [0, 0, 1, 0] := by
  have h := (reminder_fires_once reminderPage 1700000240000 false 1700000000000
    [1700000001000, 1700000002000, 1700000240000, 1700000241000]).1 (by decide) (by decide)
  exact ⟨h.1, h.2, by decide⟩


/-! ## Geofence -/

theorem haversineA_comm (lat1 lon1 lat2 lon2 : ℝ) :
    haversineA lat1 lon1 lat2 lon2 = haversineA lat2 lon2 lat1 lon1 := by
  unfold haversineA
  have h1 : (lat1 - lat2) * Real.pi / 180 / 2 = -((lat2 - lat1) * Real.pi / 180 / 2) := by ring
  have h2 : (lon1 - lon2) * Real.pi / 180 / 2 = -((lon2 - lon1) * Real.pi / 180 / 2) := by ring
  simp only [h1, h2, Real.sin_neg]
  ring

theorem haversineA_self (lat lon : ℝ) : haversineA lat lon lat lon = 0 := by
  simp [haversineA]

theorem haversineA_meridian (lat1 lat2 lon : ℝ) :
    haversineA lat1 lon lat2 lon = Real.sin ((lat2 - lat1) * Real.pi / 180 / 2) ^ 2 := by
  simp [haversineA, sq]

/-- The haversine term lies in `[0, 1]`, so both square roots in
`calculateDistance` are taken of non-negative numbers. -/
theorem haversineA_mem_unit (lat1 lon1 lat2 lon2 : ℝ) :
    0 ≤ haversineA lat1 lon1 lat2 lon2 ∧ haversineA lat1 lon1 lat2 lon2 ≤ 1 := by
  set p1 : ℝ := lat1 * Real.pi / 180 with hp1
  set p2 : ℝ := lat2 * Real.pi / 180 with hp2
  set u : ℝ := (lon2 - lon1) * Real.pi / 180 / 2 with hu
  have hA : haversineA lat1 lon1 lat2 lon2 =
      Real.sin ((p2 - p1) / 2) ^ 2 + Real.cos p1 * Real.cos p2 * Real.sin u ^ 2 := by
    unfold haversineA
    have e : (lat2 - lat1) * Real.pi / 180 / 2 = (p2 - p1) / 2 := by rw [hp1, hp2]; ring
    simp only [e, ← hu, ← hp1, ← hp2]
    ring
  have hc : Real.cos (p2 - p1) = 1 - 2 * Real.sin ((p2 - p1) / 2) ^ 2 := by
    have h0 := Real.cos_two_mul ((p2 - p1) / 2)
    have h2 := Real.sin_sq_add_cos_sq ((p2 - p1) / 2)
    have e : 2 * ((p2 - p1) / 2) = p2 - p1 := by ring
    rw [e] at h0
    linarith
  have hsub := Real.cos_sub p2 p1
  have h1 := Real.sin_sq_add_cos_sq p1
  have h2 := Real.sin_sq_add_cos_sq p2
  have hu1 := Real.sin_sq_add_cos_sq u
  have hu0 : 0 ≤ Real.sin u ^ 2 := sq_nonneg _
  have hu2 : Real.sin u ^ 2 ≤ 1 := by nlinarith [sq_nonneg (Real.cos u)]
  set t : ℝ := 1 - 2 * Real.sin u ^ 2 with htdef
  have ht : t ^ 2 ≤ 1 := by rw [htdef]; nlinarith
  have key : 1 - 2 * haversineA lat1 lon1 lat2 lon2 =
      Real.sin p1 * Real.sin p2 + Real.cos p1 * Real.cos p2 * t := by
    rw [hA, htdef]
    linarith [hc, hsub]
  have hlo : 0 ≤ 2 * (1 - (Real.sin p1 * Real.sin p2 + Real.cos p1 * Real.cos p2 * t)) := by
    have : 2 * (1 - (Real.sin p1 * Real.sin p2 + Real.cos p1 * Real.cos p2 * t)) =
        (Real.sin p1 - Real.sin p2) ^ 2 + (Real.cos p1 - Real.cos p2 * t) ^ 2
          + Real.cos p2 ^ 2 * (1 - t ^ 2) := by
      linear_combination (-1 : ℝ) * h1 + (-1 : ℝ) * h2
    rw [this]
    have := mul_nonneg (sq_nonneg (Real.cos p2)) (sub_nonneg.2 ht)
    positivity
  have hhi : 0 ≤ 2 * (1 + (Real.sin p1 * Real.sin p2 + Real.cos p1 * Real.cos p2 * t)) := by
    have : 2 * (1 + (Real.sin p1 * Real.sin p2 + Real.cos p1 * Real.cos p2 * t)) =
        (Real.sin p1 + Real.sin p2) ^ 2 + (Real.cos p1 + Real.cos p2 * t) ^ 2
          + Real.cos p2 ^ 2 * (1 - t ^ 2) := by
      linear_combination (-1 : ℝ) * h1 + (-1 : ℝ) * h2
    rw [this]
    have := mul_nonneg (sq_nonneg (Real.cos p2)) (sub_nonneg.2 ht)
    positivity
  constructor <;> linarith

theorem atan2_sin_cos (t : ℝ) (h0 : -Real.pi < t) (h1 : t ≤ Real.pi) :
    atan2 (Real.sin t) (Real.cos t) = t := by
  have h := Complex.arg_cos_add_sin_mul_I (θ := t) ⟨h0, h1⟩
  have e : (⟨Real.cos t, Real.sin t⟩ : ℂ) = Complex.cos t + Complex.sin t * Complex.I := by
    apply Complex.ext <;> simp [← Complex.ofReal_cos, ← Complex.ofReal_sin]
  rw [atan2, e, h]

/-- Along a meridian, up to half a turn, the distance is the arc `R * |Δlat|`. -/
theorem calculateDistance_meridian (lat1 lat2 lon : ℝ) (h : |lat2 - lat1| ≤ 180) :
    calculateDistance lat1 lon lat2 lon = 6371000 * (|lat2 - lat1| * Real.pi / 180) := by
  have hpi := Real.pi_pos
  set t : ℝ := |lat2 - lat1| * Real.pi / 180 / 2 with ht
  have ht0 : 0 ≤ t := by positivity
  have ht1 : t ≤ Real.pi / 2 := by
    rw [ht]
    have : |lat2 - lat1| * Real.pi ≤ 180 * Real.pi := by nlinarith
    linarith
  have hsq : Real.sin ((lat2 - lat1) * Real.pi / 180 / 2) ^ 2 = Real.sin t ^ 2 := by
    rcases abs_cases (lat2 - lat1) with ⟨e, _⟩ | ⟨e, _⟩
    · rw [ht, e]
    · have : (lat2 - lat1) * Real.pi / 180 / 2 = -t := by rw [ht, e]; ring
      rw [this, Real.sin_neg]; ring
  have hsin : 0 ≤ Real.sin t := Real.sin_nonneg_of_nonneg_of_le_pi ht0 (by linarith)
  have hcos : 0 ≤ Real.cos t := Real.cos_nonneg_of_neg_pi_div_two_le_of_le (by linarith) ht1
  have hs1 : Real.sqrt (Real.sin t ^ 2) = Real.sin t := Real.sqrt_sq hsin
  have hs2 : Real.sqrt (1 - Real.sin t ^ 2) = Real.cos t := by
    have : 1 - Real.sin t ^ 2 = Real.cos t ^ 2 := by
      have := Real.sin_sq_add_cos_sq t
      linarith
    rw [this, Real.sqrt_sq hcos]
  unfold calculateDistance
  simp only [haversineA_meridian, hsq, hs1, hs2]
  rw [atan2_sin_cos t (by linarith) (by linarith), ht]
  ring

theorem calculateDistance_comm (lat1 lon1 lat2 lon2 : ℝ) :
    calculateDistance lat1 lon1 lat2 lon2 = calculateDistance lat2 lon2 lat1 lon1 := by
  unfold calculateDistance
  rw [haversineA_comm]

theorem calculateDistance_self (lat lon : ℝ) : calculateDistance lat lon lat lon = 0 := by
  have h : (⟨1, 0⟩ : ℂ) = ((1 : ℝ) : ℂ) := by apply Complex.ext <;> simp
  unfold calculateDistance
  simp only [haversineA_self, Real.sqrt_zero, sub_zero, Real.sqrt_one, atan2]
  rw [h, Complex.arg_ofReal_of_nonneg zero_le_one]
  ring

/-- C4: on real numbers `calculateDistance` is symmetric in its two points, and
the distance from a point to itself is 0. -/
theorem calculateDistance_symm_self (lat1 lon1 lat2 lon2 : ℝ) :
    calculateDistance lat1 lon1 lat2 lon2 = calculateDistance lat2 lon2 lat1 lon1 ∧
    calculateDistance lat1 lon1 lat1 lon1 = 0 :=
  ⟨calculateDistance_comm lat1 lon1 lat2 lon2, calculateDistance_self lat1 lon1⟩

/-- The point `m` metres north of the school has distance `m` to the school. -/
theorem calculateDistance_northOfSchool (m : ℝ) (h0 : 0 ≤ m) (h1 : m ≤ 6371000) :
    calculateDistance (northOfSchool m) SCHOOL_LOCATION.longitude
      SCHOOL_LOCATION.latitude SCHOOL_LOCATION.longitude = m := by
  have hpi := Real.pi_pos
  have h3 := Real.pi_gt_three
  have hd : SCHOOL_LOCATION.latitude - northOfSchool m = -(m / 6371000 * 180 / Real.pi) := by
    unfold northOfSchool; ring
  have hnn : 0 ≤ m / 6371000 * 180 / Real.pi := by positivity
  have habs : |SCHOOL_LOCATION.latitude - northOfSchool m| = m / 6371000 * 180 / Real.pi := by
    rw [hd, abs_neg, abs_of_nonneg hnn]
  have hle : |SCHOOL_LOCATION.latitude - northOfSchool m| ≤ 180 := by
    rw [habs, div_le_iff₀ hpi]
    have : m / 6371000 ≤ 1 := by rw [div_le_one (by norm_num)]; exact h1
    nlinarith
  rw [calculateDistance_meridian _ _ _ hle, habs]
  field_simp
  ring

theorem isAtSchool_isWithinRadius (userLat userLon : ℝ) :
    (isAtSchool userLat userLon).isWithinRadius = true ↔
      calculateDistance userLat userLon SCHOOL_LOCATION.latitude SCHOOL_LOCATION.longitude
        ≤ 100 := by
  simp [isAtSchool, SCHOOL_LOCATION]

/-- C3: `isAtSchool(userLat, userLon).isWithinRadius` is true exactly when the
distance from the user to the school centre is at most
`SCHOOL_LOCATION.radiusMeters`, which is 100; it is true when the distance is
exactly 100; and `requiredRadius` is 100. -/
theorem isAtSchool_within_iff (userLat userLon : ℝ) :
    ((isAtSchool userLat userLon).isWithinRadius = true ↔
      calculateDistance userLat userLon SCHOOL_LOCATION.latitude SCHOOL_LOCATION.longitude
        ≤ SCHOOL_LOCATION.radiusMeters) ∧
    SCHOOL_LOCATION.radiusMeters = 100 ∧
    (calculateDistance userLat userLon SCHOOL_LOCATION.latitude SCHOOL_LOCATION.longitude = 100 →
      (isAtSchool userLat userLon).isWithinRadius = true) ∧
    (isAtSchool userLat userLon).requiredRadius = 100 := by
  have hr : SCHOOL_LOCATION.radiusMeters = 100 := rfl
  refine ⟨?_, hr, ?_, hr⟩
  · rw [hr]; exact isAtSchool_isWithinRadius userLat userLon
  · intro h
    exact (isAtSchool_isWithinRadius userLat userLon).2 (le_of_eq h)

theorem isAtSchool_within_iff_witness :
    calculateDistance (northOfSchool 100) SCHOOL_LOCATION.longitude
      SCHOOL_LOCATION.latitude SCHOOL_LOCATION.longitude = 100 ∧
    (isAtSchool (northOfSchool 100) SCHOOL_LOCATION.longitude).isWithinRadius = true :=
  ⟨calculateDistance_northOfSchool 100 (by norm_num) (by norm_num),
   (isAtSchool_within_iff (northOfSchool 100) SCHOOL_LOCATION.longitude).2.2.1
     (calculateDistance_northOfSchool 100 (by norm_num) (by norm_num))⟩

/-- C8: when a position is delivered to `verifyLocationAndReturn`, the `PATCH`
request of `markAsReturned` (status "completed" and returnedAt) is issued if and
only if `isAtSchool` reports `isWithinRadius`.  Within the radius it is issued
for the given id and the success callback gets the result; outside the radius no
`PATCH` request is made at all and the failure callback gets the result, which
carries the rounded distance and `requiredRadius = 100`. -/
theorem verifyLocationAndReturn_position (hasStatusEl : Bool) (dispensationId : Int)
    (isoNow : String) (latitude longitude : ℝ) :
    ((∃ i b, ClientEffect.patchRequest i b ∈
        verifyLocationAndReturn (some (GeoOutcome.position latitude longitude)) hasStatusEl
          dispensationId isoNow) ↔
      (isAtSchool latitude longitude).isWithinRadius = true) ∧
    ((isAtSchool latitude longitude).isWithinRadius = true →
      ClientEffect.patchRequest dispensationId (markAsReturned isoNow) ∈
        verifyLocationAndReturn (some (GeoOutcome.position latitude longitude)) hasStatusEl
          dispensationId isoNow ∧
      ClientEffect.onSuccess (isAtSchool latitude longitude) ∈
        verifyLocationAndReturn (some (GeoOutcome.position latitude longitude)) hasStatusEl
          dispensationId isoNow) ∧
    ((isAtSchool latitude longitude).isWithinRadius = false →
      (∀ i b, ClientEffect.patchRequest i b ∉
        verifyLocationAndReturn (some (GeoOutcome.position latitude longitude)) hasStatusEl
          dispensationId isoNow) ∧
      ClientEffect.onFail (isAtSchool latitude longitude) ∈
        verifyLocationAndReturn (some (GeoOutcome.position latitude longitude)) hasStatusEl
          dispensationId isoNow) ∧
    getField (markAsReturned isoNow) "status" = some (Val.str "completed") ∧
    getField (markAsReturned isoNow) "returnedAt" = some (Val.str isoNow) ∧
    (isAtSchool latitude longitude).requiredRadius = 100 ∧
    (isAtSchool latitude longitude).distance =
      ⌊calculateDistance latitude longitude SCHOOL_LOCATION.latitude
        SCHOOL_LOCATION.longitude + 1 / 2⌋ := by
  have hst : getField (markAsReturned isoNow) "status" = some (Val.str "completed") := by
    simp [markAsReturned, getField]
  have hret : getField (markAsReturned isoNow) "returnedAt" = some (Val.str isoNow) := by
    simp [markAsReturned, getField]
  refine ⟨?_, ?_, ?_, hst, hret, rfl, rfl⟩
  · cases hw : (isAtSchool latitude longitude).isWithinRadius <;> cases hasStatusEl <;>
      simp [verifyLocationAndReturn, onGeoOutcome, hw]
  · intro hw
    cases hasStatusEl <;> simp [verifyLocationAndReturn, onGeoOutcome, hw]
  · intro hw
    cases hasStatusEl <;> simp [verifyLocationAndReturn, onGeoOutcome, hw]

theorem isAtSchool_centre :
    (isAtSchool SCHOOL_LOCATION.latitude SCHOOL_LOCATION.longitude).isWithinRadius = true := by
  rw [isAtSchool_isWithinRadius, calculateDistance_self]
  norm_num

theorem isAtSchool_north500 :
    (isAtSchool (northOfSchool 500) SCHOOL_LOCATION.longitude).isWithinRadius = false ∧
    (isAtSchool (northOfSchool 500) SCHOOL_LOCATION.longitude).distance = 500 := by
  have hd := calculateDistance_northOfSchool 500 (by norm_num) (by norm_num)
  constructor
  · rw [← Bool.not_eq_true, isAtSchool_isWithinRadius, hd]
    norm_num
  · show ⌊calculateDistance (northOfSchool 500) SCHOOL_LOCATION.longitude
      SCHOOL_LOCATION.latitude SCHOOL_LOCATION.longitude + 1 / 2⌋ = 500
    rw [hd, Int.floor_eq_iff]
    norm_num

theorem verifyLocationAndReturn_position_witness :
    ClientEffect.patchRequest 1700000000000 (markAsReturned "T") ∈
      verifyLocationAndReturn
        (some (GeoOutcome.position SCHOOL_LOCATION.latitude SCHOOL_LOCATION.longitude))
        true 1700000000000 "T" ∧
    (isAtSchool (northOfSchool 500) SCHOOL_LOCATION.longitude).distance = 500 ∧
    (∀ i b, ClientEffect.patchRequest i b ∉
      verifyLocationAndReturn
        (some (GeoOutcome.position (northOfSchool 500) SCHOOL_LOCATION.longitude))
        true 1700000000000 "T") ∧
    ClientEffect.onFail (isAtSchool (northOfSchool 500) SCHOOL_LOCATION.longitude) ∈
      verifyLocationAndReturn
        (some (GeoOutcome.position (northOfSchool 500) SCHOOL_LOCATION.longitude))
        true 1700000000000 "T" :=
  ⟨((verifyLocationAndReturn_position true 1700000000000 "T" SCHOOL_LOCATION.latitude
      SCHOOL_LOCATION.longitude).2.1 isAtSchool_centre).1,
   isAtSchool_north500.2,
   ((verifyLocationAndReturn_position true 1700000000000 "T" (northOfSchool 500)
      SCHOOL_LOCATION.longitude).2.2.1 isAtSchool_north500.1).1,
   ((verifyLocationAndReturn_position true 1700000000000 "T" (northOfSchool 500)
      SCHOOL_LOCATION.longitude).2.2.1 isAtSchool_north500.1).2⟩


/-! ## Rate limiter: the periodic sweep -/

theorem sweepRecentSubmissions_eq_some (m : String → Option Int) (now : Int) (ip : String)
    (ts : Int) :
    sweepRecentSubmissions m now ip = some ts ↔ (m ip = some ts ∧ now - ts ≤ 60000) := by
  unfold sweepRecentSubmissions
  cases h : m ip with
  | none => simp
  | some l =>
    by_cases hl : now - l > 60000
    · simp only [hl, if_true, Option.some.injEq]
      constructor
      · intro h0; cases h0
      · rintro ⟨rfl, h2⟩; omega
    · simp only [hl, if_false, Option.some.injEq]
      constructor
      · rintro rfl; exact ⟨rfl, by omega⟩
      · rintro ⟨rfl, _⟩; rfl

/-- C11: after the sweep at `now`, the map holds `ts` for an identity if and only
if it held `ts` for that identity before and `now - ts <= 60000`.  So no entry of
age at most 60 seconds is purged, every older entry is purged, nothing is added
and the timestamps that remain are unchanged. -/
theorem sweepRecentSubmissions_spec (m : String → Option Int) (now : Int) (ip : String) :
    (∀ ts, sweepRecentSubmissions m now ip = some ts ↔ (m ip = some ts ∧ now - ts ≤ 60000)) ∧
    (∀ ts, m ip = some ts → now - ts ≤ 60000 → sweepRecentSubmissions m now ip = some ts) ∧
    (∀ ts, m ip = some ts → 60000 < now - ts → sweepRecentSubmissions m now ip = none) ∧
    (m ip = none → sweepRecentSubmissions m now ip = none) := by
  refine ⟨fun ts => sweepRecentSubmissions_eq_some m now ip ts, ?_, ?_, ?_⟩
  · intro ts h1 h2
    exact (sweepRecentSubmissions_eq_some m now ip ts).2 ⟨h1, h2⟩
  · intro ts h1 h2
    have h3 : now - ts > 60000 := h2
    simp [sweepRecentSubmissions, h1, h3]
  · intro h1
    simp [sweepRecentSubmissions, h1]

theorem sweepRecentSubmissions_spec_witness :
    sweepRecentSubmissions oneEntryMap 1700000060000 "10.0.0.1" = some 1700000000000 ∧
    sweepRecentSubmissions oneEntryMap 1700000060001 "10.0.0.1" = none ∧
    sweepRecentSubmissions oneEntryMap 1700000060000 "10.0.0.2" = none :=
  ⟨(sweepRecentSubmissions_spec oneEntryMap 1700000060000 "10.0.0.1").2.1 1700000000000
     (by decide) (by decide),
   (sweepRecentSubmissions_spec oneEntryMap 1700000060001 "10.0.0.1").2.2.1 1700000000000
     (by decide) (by decide),
   (sweepRecentSubmissions_spec oneEntryMap 1700000060000 "10.0.0.2").2.2.2 (by decide)⟩

theorem throttled_sweepRecentSubmissions (m : String → Option Int) (s t : Int) (ip : String)
    (h : s ≤ t) :
    throttled (sweepRecentSubmissions m s ip) t = throttled (m ip) t := by
  unfold sweepRecentSubmissions
  cases hm : m ip with
  | none => rfl
  | some l =>
    by_cases hl : s - l > 60000
    · have h1 : ¬ t - l < 30000 := by omega
      simp [throttled, hl, h1]
    · simp [hl]

/-- C16: for every state of the limiter map, every sweep time `s` and every
submission tested at `t >= s`, the handler of `POST /dispensations` gives the
same response (201 or 429, with the same body) whether or not the sweep ran at
`s`; an entry the sweep removes is older than 60 seconds at `s`, hence older
than the 30-second window at `t`. -/
theorem sweep_keeps_decision (st : ServerState) (s : Int) (req : SubmitRequest)
    (clock : Clock) (rand : Nat → ℚ) (h : s ≤ clock.atCheck) :
    (postDispensation
        { st with recentSubmissions := sweepRecentSubmissions st.recentSubmissions s }
        req clock rand).1 = (postDispensation st req clock rand).1 ∧
    (∀ ip ts, st.recentSubmissions ip = some ts →
      sweepRecentSubmissions st.recentSubmissions s ip = none →
      30000 ≤ clock.atCheck - ts) := by
  constructor
  · have ht := throttled_sweepRecentSubmissions st.recentSubmissions s clock.atCheck
      (clientIP req) h
    unfold postDispensation
    simp only [ht]
    split_ifs <;> rfl
  · intro ip ts h1 h2
    by_cases hl : s - ts > 60000
    · omega
    · simp [sweepRecentSubmissions, h1, hl] at h2

theorem sweep_keeps_decision_witness :
    sweepRecentSubmissions oneEntryMap 1700000070000 "10.0.0.1" = none ∧
    (postDispensation
        { emptyServer with
          recentSubmissions := sweepRecentSubmissions oneEntryMap 1700000070000 }
        (submissionFrom "10.0.0.1" "Ani") (clockAt 1700000071000) (fun _ => 0)).1
      = (postDispensation { emptyServer with recentSubmissions := oneEntryMap }
          (submissionFrom "10.0.0.1" "Ani") (clockAt 1700000071000) (fun _ => 0)).1 ∧
    (postDispensation { emptyServer with recentSubmissions := oneEntryMap }
        (submissionFrom "10.0.0.1" "Ani") (clockAt 1700000071000) (fun _ => 0)).1.status
      = 201 :=
  ⟨by decide,
   (sweep_keeps_decision { emptyServer with recentSubmissions := oneEntryMap }
     1700000070000 (submissionFrom "10.0.0.1" "Ani") (clockAt 1700000071000) (fun _ => 0)
     (by decide)).1,
   by decide⟩

/-! ## Countdown -/

/-- C15: `getTimeRemaining` on integer milliseconds.  With `diff = target - now`:
when `diff <= 0` all four numbers are 0 and `expired` is true; when `diff > 0`,
`expired` is false, `total = diff`, minutes and seconds lie in `0..59`, hours is
not negative, and hours, minutes and seconds together are `diff` rounded down to
a whole second. -/
theorem getTimeRemaining_spec (now target : Int) :
    (target - now ≤ 0 →
      getTimeRemaining now target =
        { total := 0, hours := 0, minutes := 0, seconds := 0, expired := true }) ∧
    (0 < target - now →
      (getTimeRemaining now target).expired = false ∧
      (getTimeRemaining now target).total = target - now ∧
      0 ≤ (getTimeRemaining now target).hours ∧
      0 ≤ (getTimeRemaining now target).minutes ∧
      (getTimeRemaining now target).minutes < 60 ∧
      0 ≤ (getTimeRemaining now target).seconds ∧
      (getTimeRemaining now target).seconds < 60 ∧
      (getTimeRemaining now target).hours * 3600000
          + (getTimeRemaining now target).minutes * 60000
          + (getTimeRemaining now target).seconds * 1000 ≤ target - now ∧
      target - now <
        (getTimeRemaining now target).hours * 3600000
          + (getTimeRemaining now target).minutes * 60000
          + (getTimeRemaining now target).seconds * 1000 + 1000) := by
  constructor
  · intro h
    simp [getTimeRemaining, h]
  · intro h
    have hn : ¬ target - now ≤ 0 := by omega
    have h0 : (0 : Int) ≤ target - now := by omega
    have e1 : Int.tmod (target - now) (1000 * 60 * 60) = (target - now) % 3600000 :=
      Int.tmod_eq_emod h0 (by norm_num)
    have e2 : Int.tmod (target - now) (1000 * 60) = (target - now) % 60000 :=
      Int.tmod_eq_emod h0 (by norm_num)
    have e3 : Int.fdiv (target - now) (1000 * 60 * 60) = (target - now) / 3600000 :=
      Int.fdiv_eq_ediv _ (by norm_num)
    have e4 : Int.fdiv ((target - now) % 3600000) (1000 * 60)
        = (target - now) % 3600000 / 60000 := Int.fdiv_eq_ediv _ (by norm_num)
    have e5 : Int.fdiv ((target - now) % 60000) 1000 = (target - now) % 60000 / 1000 :=
      Int.fdiv_eq_ediv _ (by norm_num)
    simp only [getTimeRemaining, hn, if_false, e1, e2, e3, e4, e5]
    refine ⟨trivial, trivial, ?_, ?_, ?_, ?_, ?_, ?_, ?_⟩ <;> omega

theorem getTimeRemaining_spec_witness :
    getTimeRemaining 1700000000000 1699999999000 =
      { total := 0, hours := 0, minutes := 0, seconds := 0, expired := true } ∧
    getTimeRemaining 1700000000000 1700003725999 =
      { total := 3725999, hours := 1, minutes := 2, seconds := 5, expired := false } ∧
    (getTimeRemaining 1700000000000 1700003725999).minutes < 60 :=
  ⟨(getTimeRemaining_spec 1700000000000 1699999999000).1 (by decide),
   by decide,
   ((getTimeRemaining_spec 1700000000000 1700003725999).2 (by decide)).2.2.2.2.1⟩


/-! ## Teachers -/

theorem getField_pickField (t : Record) (k0 k : String) :
    getField (pickField t k0) k = if k = k0 then getField t k0 else none := by
  unfold pickField
  cases h : getField t k0 with
  | none => simp [getField]
  | some v =>
    by_cases hk : k = k0
    · subst hk; simp [getField]
    · have : ¬ k0 = k := fun e => hk e.symm
      simp [getField, hk, this]

theorem hasField_pickField (t : Record) (k0 k : String) (h : hasField (pickField t k0) k = true) :
    k = k0 := by
  unfold pickField at h
  cases hg : getField t k0 with
  | none => simp [hg, hasField] at h
  | some v =>
    simp only [hg, hasField, List.any_cons, List.any_nil, Bool.or_false,
      decide_eq_true_eq] at h
    exact h.symm

theorem getField_safeTeacher (t : Record) (k : String) :
    getField (safeTeacher t) k =
      if k = "id" ∨ k = "username" ∨ k = "name" ∨ k = "role" then getField t k else none := by
  simp only [safeTeacher, getField_append, getField_pickField]
  by_cases h1 : k = "id"
  · subst h1; cases hg : getField t "id" <;> simp [hg]
  by_cases h2 : k = "username"
  · subst h2; cases hg : getField t "username" <;> simp [hg]
  by_cases h3 : k = "name"
  · subst h3; cases hg : getField t "name" <;> simp [hg]
  by_cases h4 : k = "role"
  · subst h4; cases hg : getField t "role" <;> simp [hg]
  simp [h1, h2, h3, h4]

theorem hasField_safeTeacher (t : Record) (k : String) (h : hasField (safeTeacher t) k = true) :
    k = "id" ∨ k = "username" ∨ k = "name" ∨ k = "role" := by
  have happ : ∀ a b : Record, hasField (a ++ b) k = (hasField a k || hasField b k) := by
    intro a b; simp [hasField, List.any_append]
  simp only [safeTeacher, happ, Bool.or_eq_true] at h
  rcases h with ((h | h) | h) | h
  · exact Or.inl (hasField_pickField t _ k h)
  · exact Or.inr (Or.inl (hasField_pickField t _ k h))
  · exact Or.inr (Or.inr (Or.inl (hasField_pickField t _ k h)))
  · exact Or.inr (Or.inr (Or.inr (hasField_pickField t _ k h)))

theorem mem_getTeachersRoute (teachers : Option (List Record))
    (username password : Option QueryValue) (out : Record)
    (h : out ∈ getTeachersRoute teachers username password) :
    ∃ t ∈ getTeachers teachers, out = safeTeacher t ∧
      (queryTruthy username = true → queryTruthy password = true →
        queryEq (getField t "username") username = true ∧
        queryEq (getField t "password") password = true) := by
  unfold getTeachersRoute at h
  simp only [List.mem_map] at h
  obtain ⟨t, ht, rfl⟩ := h
  by_cases hq : (queryTruthy username && queryTruthy password) = true
  · rw [if_pos hq, List.mem_filter] at ht
    refine ⟨t, ht.1, rfl, fun _ _ => ?_⟩
    simpa using ht.2
  · rw [if_neg hq] at ht
    refine ⟨t, ht, rfl, fun h1 h2 => ?_⟩
    simp [h1, h2] at hq

/-- C12: every element of the `GET /teachers` response is built from one stored
teacher and carries that teacher's `id`, `username`, `name` and `role` and no
other field: reading any other field of it, `password` included, gives
`undefined`, and it has no own property outside those four. -/
theorem getTeachersRoute_safe (teachers : Option (List Record))
    (username password : Option QueryValue) :
    ∀ out ∈ getTeachersRoute teachers username password,
      ∃ t ∈ getTeachers teachers,
        (∀ k, getField out k =
          if k = "id" ∨ k = "username" ∨ k = "name" ∨ k = "role" then getField t k
          else none) ∧
        getField out "password" = none ∧
        hasField out "password" = false ∧
        ∀ k, hasField out k = true → k = "id" ∨ k = "username" ∨ k = "name" ∨ k = "role" := by
  intro out hout
  obtain ⟨t, ht, rfl, _⟩ := mem_getTeachersRoute teachers username password out hout
  refine ⟨t, ht, getField_safeTeacher t, ?_, ?_, hasField_safeTeacher t⟩
  · rw [getField_safeTeacher]; simp
  · cases hh : hasField (safeTeacher t) "password" with
    | false => rfl
    | true =>
      have := hasField_safeTeacher t "password" hh
      simp at this

theorem getTeachersRoute_safe_witness :
    getTeachersRoute (some [teacherBudi, teacherSari]) none none =
      [[("id", Val.num 1), ("username", Val.str "budi"), ("name", Val.str "Pak Budi"),
        ("role", Val.str "teacher")],
       [("id", Val.num 2), ("username", Val.str "sari"), ("name", Val.str "Bu Sari"),
        ("role", Val.str "teacher")]] ∧
    ∃ t ∈ getTeachers (some [teacherBudi, teacherSari]),
      getField (safeTeacher teacherSari) "name" = getField t "name" ∧
      getField (safeTeacher teacherSari) "password" = none := by
  refine ⟨by decide, ?_⟩
  obtain ⟨t, ht, h1, h2, _⟩ :=
    getTeachersRoute_safe (some [teacherBudi, teacherSari]) none none
      (safeTeacher teacherSari) (by decide)
  exact ⟨t, ht, by rw [h1]; simp, h2⟩

theorem length_filter_le_one {α β : Type} (g : α → β) (c : β) (p : α → Bool) (l : List α)
    (hp : ∀ a, p a = true → g a = c) (hn : (l.map g).Nodup) :
    (l.filter p).length ≤ 1 := by
  induction l with
  | nil => simp
  | cons a rest ih =>
    rw [List.map_cons, List.nodup_cons] at hn
    by_cases ha : p a = true
    · have hrest : rest.filter p = [] := by
        rw [List.filter_eq_nil_iff]
        intro b hb hpb
        apply hn.1
        rw [hp a ha, ← hp b hpb]
        exact List.mem_map_of_mem g hb
      simp [List.filter_cons, ha, hrest]
    · simp only [List.filter_cons, ha, Bool.false_eq_true, if_false]
      exact ih hn.2

/-- A request to `GET /teachers` with a username and no password gets every
stored teacher, as does one with an empty password; and when two stored teachers
have the same username and password, a request with both gets two records. -/
theorem getTeachersRoute_not_filtered :
    (getTeachersRoute (some [teacherBudi, teacherSari]) (some (QueryValue.str "budi")) none).map
        (fun out => getField out "username")
      = [some (Val.str "budi"), some (Val.str "sari")] ∧
    (getTeachersRoute (some [teacherBudi, teacherSari]) (some (QueryValue.str "budi"))
        (some (QueryValue.str ""))).length = 2 ∧
    (getTeachersRoute (some [teacherBudi, teacherBudiAgain]) (some (QueryValue.str "budi"))
        (some (QueryValue.str "rahasia"))).map (fun out => getField out "id")
      = [some (Val.num 1), some (Val.num 3)] := by
  decide

/-- The filter of `GET /teachers` where it runs: when `username` and `password`
are both truthy, every returned record is built from a stored teacher whose
username and password both equal the supplied strings, and the response holds at
most one record when no two stored teachers have the same username and
password. -/
theorem getTeachersRoute_credentials (teachers : Option (List Record))
    (username password : Option QueryValue)
    (hu : queryTruthy username = true) (hp : queryTruthy password = true) :
    (∀ out ∈ getTeachersRoute teachers username password,
      ∃ t ∈ getTeachers teachers, ∃ u p,
        username = some (QueryValue.str u) ∧ password = some (QueryValue.str p) ∧
        getField t "username" = some (Val.str u) ∧
        getField t "password" = some (Val.str p) ∧
        out = safeTeacher t) ∧
    (((getTeachers teachers).map
        (fun t => (getField t "username", getField t "password"))).Nodup →
      (getTeachersRoute teachers username password).length ≤ 1) := by
  constructor
  · intro out hout
    obtain ⟨t, ht, hsafe, hq⟩ := mem_getTeachersRoute teachers username password out hout
    obtain ⟨h1, h2⟩ := hq hu hp
    cases username with
    | none => simp [queryTruthy] at hu
    | some qu =>
      cases password with
      | none => simp [queryTruthy] at hp
      | some qp =>
        cases qu with
        | other => simp [queryEq] at h1
        | str u =>
          cases qp with
          | other => simp [queryEq] at h2
          | str p =>
            refine ⟨t, ht, u, p, rfl, rfl, ?_, ?_, hsafe⟩
            · simpa [queryEq] using h1
            · simpa [queryEq] using h2
  · intro hn
    unfold getTeachersRoute
    simp only [hu, hp, Bool.and_self, if_true, List.length_map]
    cases username with
    | none => simp [queryTruthy] at hu
    | some qu =>
      cases password with
      | none => simp [queryTruthy] at hp
      | some qp =>
        cases qu with
        | other => simp [queryEq]
        | str u =>
          cases qp with
          | other => simp [queryEq]
          | str p =>
            apply length_filter_le_one
              (fun t => (getField t "username", getField t "password"))
              (some (Val.str u), some (Val.str p)) _ _ _ hn
            intro a ha
            simp only [queryEq, Bool.and_eq_true, decide_eq_true_eq] at ha
            show (getField a "username", getField a "password") = _
            rw [ha.1, ha.2]

theorem getTeachersRoute_credentials_witness :
    getTeachersRoute (some [teacherBudi, teacherSari]) (some (QueryValue.str "sari"))
        (some (QueryValue.str "kunci"))
      = [[("id", Val.num 2), ("username", Val.str "sari"), ("name", Val.str "Bu Sari"),
          ("role", Val.str "teacher")]] ∧
    (getTeachersRoute (some [teacherBudi, teacherSari]) (some (QueryValue.str "sari"))
        (some (QueryValue.str "kunci"))).length ≤ 1 ∧
    (getTeachersRoute (some [teacherBudi, teacherSari]) (some (QueryValue.str "sari"))
        (some (QueryValue.str "salah"))) = [] :=
  ⟨by decide,
   (getTeachersRoute_credentials (some [teacherBudi, teacherSari])
     (some (QueryValue.str "sari")) (some (QueryValue.str "kunci")) (by decide)
     (by decide)).2 (by decide),
   by decide⟩


/-- C13, an input on which the code departs from the claim.  Teachers budi and
sari are stored.  `GET /teachers?username=bukan-guru&password=` supplies a
username that no stored teacher has and an empty password: the filter is
skipped and the response holds both teachers, two records of which none has the
supplied username or password.  `teacherLogin('bukan-guru', '')` takes the first
of them and returns budi as the teacher logged in, the same teacher that
`teacherLogin('budi', 'rahasia')` returns, while a wrong non-empty password is
refused. -/
theorem teacherLogin_empty_password :
    getTeachersRoute (some [teacherBudi, teacherSari]) (some (QueryValue.str "bukan-guru"))
        (some (QueryValue.str ""))
      = [safeTeacher teacherBudi, safeTeacher teacherSari] ∧
    (∀ t ∈ [teacherBudi, teacherSari],
      getField t "username" ≠ some (Val.str "bukan-guru") ∧
      getField t "password" ≠ some (Val.str "")) ∧
    teacherLogin (some [teacherBudi, teacherSari]) "bukan-guru" ""
      = some (safeTeacher teacherBudi) ∧
    getField (safeTeacher teacherBudi) "username" = some (Val.str "budi") ∧
    teacherLogin (some [teacherBudi, teacherSari]) "budi" "rahasia"
      = some (safeTeacher teacherBudi) ∧
    teacherLogin (some [teacherBudi, teacherSari]) "budi" "salah" = none := by
  decide

/-! ## Geofence: inputs out of range -/

/-- C14, the claim as stated fails: with latitude 91 and longitude 200, both out
of range, `calculateDistance` returns the number 0 for two equal points, and
`isAtSchool` at latitude 91 returns its usual result, outside the radius. -/
theorem calculateDistance_accepts_out_of_range :
    (90 : ℝ) < |91| ∧ (180 : ℝ) < |200| ∧
    calculateDistance 91 200 91 200 = 0 ∧
    (isAtSchool 91 SCHOOL_LOCATION.longitude).isWithinRadius = false ∧
    (isAtSchool 91 SCHOOL_LOCATION.longitude).requiredRadius = 100 := by
  have h3 := Real.pi_gt_three
  have habs : |SCHOOL_LOCATION.latitude - 91| = 97.8057694 := by
    have : SCHOOL_LOCATION.latitude - 91 = -97.8057694 := by
      simp only [SCHOOL_LOCATION]; norm_num
    rw [this, abs_neg, abs_of_nonneg (by norm_num)]
  have hd : calculateDistance 91 SCHOOL_LOCATION.longitude SCHOOL_LOCATION.latitude
      SCHOOL_LOCATION.longitude = 6371000 * (97.8057694 * Real.pi / 180) := by
    rw [calculateDistance_meridian _ _ _ (by rw [habs]; norm_num), habs]
  refine ⟨by norm_num, by norm_num, calculateDistance_self 91 200, ?_, rfl⟩
  rw [← Bool.not_eq_true, isAtSchool_isWithinRadius, hd]
  intro hle
  nlinarith

theorem not_mem_verifyLocationAndReturn (lat lon : ℝ) (hasStatusEl : Bool)
    (dispensationId : Int) (isoNow : String) (msg : String) :
    ClientEffect.onLocationError msg ∉
      verifyLocationAndReturn (some (GeoOutcome.position lat lon)) hasStatusEl dispensationId
        isoNow := by
  simp only [verifyLocationAndReturn, onGeoOutcome]
  cases hasStatusEl <;> split_ifs <;> simp

theorem mem_verifyLocationAndReturn (lat lon : ℝ) (hasStatusEl : Bool)
    (dispensationId : Int) (isoNow : String) :
    (if (isAtSchool lat lon).isWithinRadius then ClientEffect.onSuccess (isAtSchool lat lon)
      else ClientEffect.onFail (isAtSchool lat lon)) ∈
      verifyLocationAndReturn (some (GeoOutcome.position lat lon)) hasStatusEl dispensationId
        isoNow := by
  simp only [verifyLocationAndReturn, onGeoOutcome]
  cases hasStatusEl <;> split_ifs <;> simp

/-- C14 (amended): `calculateDistance` and `isAtSchool` validate nothing and raise
no error.  For a position whose latitude is above 90 or whose longitude is above
180 in absolute value, `isAtSchool` returns its usual object: `isWithinRadius` is
the comparison of the computed distance with 100 and `requiredRadius` is 100;
and `verifyLocationAndReturn`, given that position, reports no location error:
it calls `onSuccess` or `onFail` with that object, as for any other position. -/
theorem calculateDistance_unchecked (lat lon : ℝ) (_h : 90 < |lat| ∨ 180 < |lon|)
    (hasStatusEl : Bool) (dispensationId : Int) (isoNow : String) :
    ((isAtSchool lat lon).isWithinRadius = true ↔
      calculateDistance lat lon SCHOOL_LOCATION.latitude SCHOOL_LOCATION.longitude ≤ 100) ∧
    (isAtSchool lat lon).requiredRadius = 100 ∧
    (∀ msg, ClientEffect.onLocationError msg ∉
      verifyLocationAndReturn (some (GeoOutcome.position lat lon)) hasStatusEl dispensationId
        isoNow) ∧
    (if (isAtSchool lat lon).isWithinRadius then ClientEffect.onSuccess (isAtSchool lat lon)
      else ClientEffect.onFail (isAtSchool lat lon)) ∈
      verifyLocationAndReturn (some (GeoOutcome.position lat lon)) hasStatusEl dispensationId
        isoNow := by
  refine ⟨?_, rfl, not_mem_verifyLocationAndReturn lat lon hasStatusEl dispensationId isoNow,
    mem_verifyLocationAndReturn lat lon hasStatusEl dispensationId isoNow⟩
  rw [isAtSchool_isWithinRadius]

theorem calculateDistance_unchecked_witness :
    ((90 : ℝ) < |91| ∨ (180 : ℝ) < |200|) ∧
    (isAtSchool 91 200).requiredRadius = 100 ∧
    (∀ msg, ClientEffect.onLocationError msg ∉
      verifyLocationAndReturn (some (GeoOutcome.position 91 200)) true 1700000000000
        "2023-11-14T22:13:20.000Z") :=
  ⟨Or.inl (by norm_num),
   (calculateDistance_unchecked 91 200 (Or.inl (by norm_num)) true 1700000000000
     "2023-11-14T22:13:20.000Z").2.1,
   (calculateDistance_unchecked 91 200 (Or.inl (by norm_num)) true 1700000000000
     "2023-11-14T22:13:20.000Z").2.2.1⟩

end Dispen
